import Mathlib

/-!
# Verification of the Nexus inventory service core

Shallow embedding of the inventory-level engine, transaction ledger and
forecasting adapter of the Adverant Nexus inventory plugin
(`src/services/inventory-level.service.ts`, `src/services/transaction.service.ts`,
`src/services/forecasting.service.ts`, `src/config/config.ts`).

Modelling conventions:
* JavaScript numbers are modelled as rationals (`ℚ`).  All quantities the
  claims exercise are small integers, for which IEEE-754 double arithmetic at
  the multipliers used by the code (0.1, 0.5, 1.5, 2.0, 0.7, 1.3) decides the
  comparisons the code performs exactly as rational arithmetic does.
* Nullable columns and optional DTO fields are `Option _`.  JavaScript
  truthiness coercions (`x || null` on strings, falsy iff `""`; `x && _` on
  numbers, falsy iff `0`) are made explicit in `jsStringOrNone` and
  `jsNumTruthy`.
* Every service method that can `throw` returns `Except String _` and also
  returns the (possibly mutated) store: the service issues its Prisma writes
  one at a time with no surrounding database transaction, so writes performed
  before a throw persist.
* Audit-only columns that no claim reads (timestamps, cost fields, free-text
  names and notes on levels, createdBy, attachments, ...) are omitted.
-/

deriving instance DecidableEq for Except

namespace Inventory

/-- `StockAlertLevel` enum from the Prisma client. -/
inductive StockAlertLevel
  | NORMAL
  | LOW
  | CRITICAL
  | HIGH
  | OVERSTOCK
deriving DecidableEq, Repr

/-- `config.stockAlert` from `src/config/config.ts`. -/
structure StockAlertConfig where
  criticalThreshold : ℚ
  lowThreshold : ℚ
  highThreshold : ℚ
  overstockThreshold : ℚ
deriving DecidableEq, Repr

/-- The literal values of `config.stockAlert`: 0.1, 0.5, 1.5, 2.0. -/
def config.stockAlert : StockAlertConfig :=
  { criticalThreshold := 1/10
    lowThreshold := 1/2
    highThreshold := 3/2
    overstockThreshold := 2 }

/-- JavaScript truthiness of a nullable number: `null` and `0` are falsy. -/
def jsNumTruthy (x : Option ℚ) : Bool :=
  match x with
  | none => false
  | some v => v != 0

/-- JavaScript `s || null` on a nullable string: the empty string is falsy and
collapses to `null`. -/
def jsStringOrNone (x : Option String) : Option String :=
  match x with
  | none => none
  | some s => if s = "" then none else some s

/-- `InventoryLevelService.calculateAlertLevel`
(`inventory-level.service.ts` lines 442-471): checks `reorderPoint === null ||
reorderPoint === 0` first, then the critical and low thresholds, then the
overstock and high checks guarded by `maxQuantity && ...` (JS truthiness). -/
def calculateAlertLevel (quantity : ℚ) (reorderPoint : Option ℚ)
    (maxQuantity : Option ℚ) : StockAlertLevel :=
  if reorderPoint = none ∨ reorderPoint = some 0 then
    .NORMAL
  else
    let rp := reorderPoint.getD 0
    let criticalThreshold := rp * config.stockAlert.criticalThreshold
    let lowThreshold := rp * config.stockAlert.lowThreshold
    if quantity ≤ criticalThreshold then
      .CRITICAL
    else if quantity ≤ lowThreshold then
      .LOW
    else if jsNumTruthy maxQuantity ∧
        quantity ≥ maxQuantity.getD 0 * config.stockAlert.overstockThreshold then
      .OVERSTOCK
    else if jsNumTruthy maxQuantity ∧
        quantity ≥ maxQuantity.getD 0 * config.stockAlert.highThreshold then
      .HIGH
    else
      .NORMAL

/-- The evaluator exactly as claim C5 words it: NORMAL when reorderPoint is
absent or zero; else CRITICAL when quantity ≤ 0.10·reorderPoint; else LOW when
quantity ≤ 0.50·reorderPoint; else OVERSTOCK when maxQuantity is *present* and
quantity ≥ 2.00·maxQuantity; else HIGH when maxQuantity is present and
quantity ≥ 1.50·maxQuantity; else NORMAL. -/
def claimAlertLevel (quantity : ℚ) (reorderPoint : Option ℚ)
    (maxQuantity : Option ℚ) : StockAlertLevel :=
  match reorderPoint with
  | none => .NORMAL
  | some rp =>
    if rp = 0 then .NORMAL
    else if quantity ≤ rp * (1/10) then .CRITICAL
    else if quantity ≤ rp * (1/2) then .LOW
    else
      match maxQuantity with
      | some mq =>
        if quantity ≥ mq * 2 then .OVERSTOCK
        else if quantity ≥ mq * (3/2) then .HIGH
        else .NORMAL
      | none => .NORMAL

/-- The evaluator as claim C5 must be amended to match the code: the
overstock/high branches additionally require maxQuantity to be *nonzero*
(the code guards them with JS truthiness `maxQuantity && ...`). -/
def claimAlertLevelAmended (quantity : ℚ) (reorderPoint : Option ℚ)
    (maxQuantity : Option ℚ) : StockAlertLevel :=
  match reorderPoint with
  | none => .NORMAL
  | some rp =>
    if rp = 0 then .NORMAL
    else if quantity ≤ rp * (1/10) then .CRITICAL
    else if quantity ≤ rp * (1/2) then .LOW
    else
      match maxQuantity with
      | some mq =>
        if mq ≠ 0 ∧ quantity ≥ mq * 2 then .OVERSTOCK
        else if mq ≠ 0 ∧ quantity ≥ mq * (3/2) then .HIGH
        else .NORMAL
      | none => .NORMAL

/-! ## Data model -/

/-- `TransactionType` enum from the Prisma client. -/
inductive TransactionType
  | RECEIVE
  | CONSUME
  | TRANSFER
  | ADJUST
  | DAMAGE
  | DISPOSE
  | ASSIGN
  | UNASSIGN
deriving DecidableEq, Repr

/-- `TransactionStatus` enum from the Prisma client. -/
inductive TransactionStatus
  | PENDING
  | APPROVED
  | COMPLETED
  | REJECTED
  | CANCELLED
deriving DecidableEq, Repr

/-- `InventoryItem` row, restricted to the columns the claims read.
`condition` is mutated by DAMAGE processing. -/
structure Item where
  id : String
  reorderPoint : Option ℚ
  maxQuantity : Option ℚ
  condition : String
deriving DecidableEq, Repr

/-- `InventoryLevel` row, restricted to the columns the claims read.
`id` models the database primary key. -/
structure InventoryLevel where
  id : Nat
  itemId : String
  propertyId : String
  unitId : Option String
  roomId : Option String
  quantityOnHand : ℚ
  quantityReserved : ℚ
  quantityAvailable : ℚ
  reorderPoint : Option ℚ
  maxQuantity : Option ℚ
  alertLevel : StockAlertLevel
deriving DecidableEq, Repr

/-- `Transaction` row, restricted to the columns the claims read. -/
structure TransactionRec where
  id : Nat
  ttype : TransactionType
  status : TransactionStatus
  itemId : String
  quantity : ℚ
  fromPropertyId : Option String
  fromUnitId : Option String
  fromRoomId : Option String
  toPropertyId : Option String
  toUnitId : Option String
  toRoomId : Option String
  stagingDesignId : Option String
  notes : Option String
deriving DecidableEq, Repr

/-- `StockAlert` row, restricted to the columns the claims read.
`isResolved` defaults to `false` on creation. -/
structure StockAlert where
  itemId : String
  levelId : Nat
  alertType : StockAlertLevel
  severity : String
  isResolved : Bool
deriving DecidableEq, Repr

/-- The database state the level and transaction services operate on.
`nextLevelId` and `nextTxId` model primary-key generation. -/
structure System where
  items : List Item
  levels : List InventoryLevel
  nextLevelId : Nat
  transactions : List TransactionRec
  nextTxId : Nat
  alerts : List StockAlert
deriving DecidableEq, Repr

/-- A store holding only `items`: no levels, no transactions, no alerts. -/
def initSystem (items : List Item) : System :=
  { items := items
    levels := []
    nextLevelId := 0
    transactions := []
    nextTxId := 0
    alerts := [] }

/-! ## InventoryLevelService -/

/-- The `where` clause of `getLevelByLocation` (lines 101-107): `itemId` and
`propertyId` compare exactly, while the optional components are first coerced
by `unitId || null` / `roomId || null`, so an empty string in the query
behaves as absent. -/
def levelMatchesQuery (l : InventoryLevel) (itemId propertyId : String)
    (unitId roomId : Option String) : Bool :=
  l.itemId == itemId && l.propertyId == propertyId &&
    l.unitId == jsStringOrNone unitId && l.roomId == jsStringOrNone roomId

/-- `InventoryLevelService.getLevelByLocation` (lines 95-112): `findFirst` on
the location key.  Prisma `findFirst` without `orderBy` is modelled as the
first row in insertion order. -/
def getLevelByLocation (s : System) (itemId propertyId : String)
    (unitId roomId : Option String) : Option InventoryLevel :=
  s.levels.find? (fun l => levelMatchesQuery l itemId propertyId unitId roomId)

/-- `InventoryLevelService.createLevel` (lines 117-160), as invoked by
`adjustInventory` (no threshold overrides in the DTO, so `minQuantity`,
`maxQuantity` and `reorderPoint` all fall back to the item's defaults).  The
stored `unitId`/`roomId` are the raw DTO values (Prisma `create` stores `""`
as `""` and `undefined` as NULL).  The level starts with
`quantityReserved = 0` and `quantityAvailable = quantityOnHand`. -/
def createLevel (s : System) (itemId propertyId : String)
    (unitId roomId : Option String) (quantityOnHand : ℚ) :
    System × Except String InventoryLevel :=
  match s.items.find? (fun it => it.id == itemId) with
  | none => (s, .error "Item not found")
  | some item =>
    let reorderPoint := item.reorderPoint
    let maxQuantity := item.maxQuantity
    let alertLevel := calculateAlertLevel quantityOnHand reorderPoint maxQuantity
    let level : InventoryLevel :=
      { id := s.nextLevelId
        itemId := itemId
        propertyId := propertyId
        unitId := unitId
        roomId := roomId
        quantityOnHand := quantityOnHand
        quantityReserved := 0
        quantityAvailable := quantityOnHand
        reorderPoint := reorderPoint
        maxQuantity := maxQuantity
        alertLevel := alertLevel }
    ({ s with levels := s.levels ++ [level], nextLevelId := s.nextLevelId + 1 },
      .ok level)

/-- `UpdateInventoryLevelDTO`, restricted to the fields the callers in scope
pass (`quantityOnHand`, `quantityReserved`, `reorderPoint`, `maxQuantity`). -/
structure UpdateLevelData where
  quantityOnHand : Option ℚ := none
  quantityReserved : Option ℚ := none
  reorderPoint : Option ℚ := none
  maxQuantity : Option ℚ := none
deriving DecidableEq, Repr

/-- `InventoryLevelService.updateLevel` (lines 165-199): recomputes
`quantityAvailable = quantityOnHand - quantityReserved` and the alert level,
then updates the row (the Prisma `...data` spread writes a DTO field only when
present, and the recomputed `quantityAvailable`/`alertLevel` override the
spread).  Threshold fallback for the alert computation is
`data.reorderPoint ?? level.reorderPoint ?? level.item.reorderPoint` (the item
join is assumed present, as the foreign key guarantees; a missing item
contributes `none`). -/
def updateLevel (s : System) (id : Nat) (data : UpdateLevelData) :
    System × Except String InventoryLevel :=
  match s.levels.find? (fun l => l.id == id) with
  | none => (s, .error "Inventory level not found")
  | some level =>
    let item := s.items.find? (fun it => it.id == level.itemId)
    let quantityOnHand := data.quantityOnHand.getD level.quantityOnHand
    let quantityReserved := data.quantityReserved.getD level.quantityReserved
    let quantityAvailable := quantityOnHand - quantityReserved
    let reorderPoint :=
      data.reorderPoint <|> level.reorderPoint <|> (item.bind (·.reorderPoint))
    let maxQuantity :=
      data.maxQuantity <|> level.maxQuantity <|> (item.bind (·.maxQuantity))
    let alertLevel := calculateAlertLevel quantityOnHand reorderPoint maxQuantity
    let level' : InventoryLevel :=
      { level with
        quantityOnHand := quantityOnHand
        quantityReserved := quantityReserved
        reorderPoint := data.reorderPoint <|> level.reorderPoint
        maxQuantity := data.maxQuantity <|> level.maxQuantity
        quantityAvailable := quantityAvailable
        alertLevel := alertLevel }
    ({ s with levels := s.levels.map (fun l => if l.id == id then level' else l) },
      .ok level')

/-- The `ADJUST` ledger entry written by `adjustInventory` (lines 242-260):
status COMPLETED, quantity `|delta|`, the location on the to-side when the
delta is positive and on the from-side when it is negative. -/
def adjustTxRecord (s : System) (itemId propertyId : String)
    (unitId roomId : Option String) (quantity : ℚ) : TransactionRec :=
  { id := s.nextTxId
    ttype := .ADJUST
    status := .COMPLETED
    itemId := itemId
    quantity := |quantity|
    toPropertyId := if quantity > 0 then some propertyId else none
    toUnitId := if quantity > 0 then unitId else none
    toRoomId := if quantity > 0 then roomId else none
    fromPropertyId := if quantity < 0 then some propertyId else none
    fromUnitId := if quantity < 0 then unitId else none
    fromRoomId := if quantity < 0 then roomId else none
    stagingDesignId := none
    notes := none }

/-- The `where` clause of the `stockAlert.findFirst` inside
`checkAndCreateAlert` (lines 495-501): an unresolved alert for this
(itemId, levelId). -/
def unresolvedFor (itemId : String) (levelId : Nat) (a : StockAlert) : Bool :=
  a.itemId == itemId && a.levelId == levelId && a.isResolved == false

/-- The `stockAlert.create` payload inside `checkAndCreateAlert`
(lines 504-514); `isResolved` takes its schema default `false`. -/
def createdAlert (level : InventoryLevel) : StockAlert :=
  { itemId := level.itemId
    levelId := level.id
    alertType := level.alertLevel
    severity := if level.alertLevel = .CRITICAL then "critical" else "high"
    isResolved := false }

/-- `InventoryLevelService.checkAndCreateAlert` (lines 492-517): when the
level is CRITICAL or LOW, create a stock alert unless an unresolved one
already exists for this (itemId, levelId). -/
def checkAndCreateAlert (s : System) (level : InventoryLevel) : System :=
  if level.alertLevel = .CRITICAL ∨ level.alertLevel = .LOW then
    let existingAlert := s.alerts.find? (unresolvedFor level.itemId level.id)
    match existingAlert with
    | some _ => s
    | none => { s with alerts := s.alerts ++ [createdAlert level] }
  else s

/-- The `transaction.create` write inside `adjustInventory` (lines 242-260):
append the ADJUST ledger entry to the store. -/
def afterAdjustTx (s₁ : System) (itemId propertyId : String)
    (unitId roomId : Option String) (quantity : ℚ) : System :=
  { s₁ with
    transactions := s₁.transactions ++ [adjustTxRecord s₁ itemId propertyId unitId roomId quantity]
    nextTxId := s₁.nextTxId + 1 }

/-- The tail of `adjustInventory` (lines 230-265), after the level has been
found or created: guard `newQuantity < 0`, update the level, write the ADJUST
ledger entry (`afterAdjustTx`), run the alert check.  Each write persists
individually (no database transaction), so the store returned alongside an
error reflects the writes already made. -/
def adjustInventoryGo (s : System) (level : InventoryLevel)
    (itemId propertyId : String) (unitId roomId : Option String)
    (quantity : ℚ) : System × Except String InventoryLevel :=
  let newQuantity := level.quantityOnHand + quantity
  if newQuantity < 0 then
    (s, .error "Insufficient inventory quantity")
  else
    match updateLevel s level.id { quantityOnHand := some newQuantity } with
    | (s₁, .error e) => (s₁, .error e)
    | (s₁, .ok updatedLevel) =>
      let s₂ := afterAdjustTx s₁ itemId propertyId unitId roomId quantity
      let s₃ := checkAndCreateAlert s₂ updatedLevel
      (s₃, .ok updatedLevel)

/-- `InventoryLevelService.adjustInventory` (lines 204-266): find the level by
location, lazily creating a zero-quantity level when none exists (this
creation happens *before* the insufficient-quantity guard and persists even
when the guard then throws). -/
def adjustInventory (s : System) (itemId propertyId : String)
    (unitId roomId : Option String) (quantity : ℚ) :
    System × Except String InventoryLevel :=
  match getLevelByLocation s itemId propertyId unitId roomId with
  | some level => adjustInventoryGo s level itemId propertyId unitId roomId quantity
  | none =>
    match createLevel s itemId propertyId unitId roomId 0 with
    | (s₁, .error e) => (s₁, .error e)
    | (s₁, .ok level) => adjustInventoryGo s₁ level itemId propertyId unitId roomId quantity

/-- `InventoryLevelService.reserveInventory` (lines 271-291). -/
def reserveInventory (s : System) (itemId propertyId : String)
    (quantity : ℚ) (unitId roomId : Option String) :
    System × Except String InventoryLevel :=
  match getLevelByLocation s itemId propertyId unitId roomId with
  | none => (s, .error "Inventory level not found")
  | some level =>
    if level.quantityAvailable < quantity then
      (s, .error "Insufficient available inventory")
    else
      updateLevel s level.id { quantityReserved := some (level.quantityReserved + quantity) }

/-- `InventoryLevelService.releaseReservedInventory` (lines 296-316). -/
def releaseReservedInventory (s : System) (itemId propertyId : String)
    (quantity : ℚ) (unitId roomId : Option String) :
    System × Except String InventoryLevel :=
  match getLevelByLocation s itemId propertyId unitId roomId with
  | none => (s, .error "Inventory level not found")
  | some level =>
    if level.quantityReserved < quantity then
      (s, .error "Cannot release more than reserved quantity")
    else
      updateLevel s level.id { quantityReserved := some (level.quantityReserved - quantity) }

/-- `InventoryLevelService.cycleCount` (lines 321-380): overwrites
`quantityOnHand` with the counted value and sets
`quantityAvailable = counted - quantityReserved` directly (without
recomputing the alert level), then writes an ADJUST ledger entry for the
variance when it is nonzero, located at the level's own location. -/
def cycleCount (s : System) (levelId : Nat) (countedQuantity : ℚ) :
    System × Except String (InventoryLevel × ℚ) :=
  match s.levels.find? (fun l => l.id == levelId) with
  | none => (s, .error "Inventory level not found")
  | some level =>
    let variance := countedQuantity - level.quantityOnHand
    let level' : InventoryLevel :=
      { level with
        quantityOnHand := countedQuantity
        quantityAvailable := countedQuantity - level.quantityReserved }
    let s₁ := { s with
      levels := s.levels.map (fun l => if l.id == levelId then level' else l) }
    if variance ≠ 0 then
      let tx : TransactionRec :=
        { id := s₁.nextTxId
          ttype := .ADJUST
          status := .COMPLETED
          itemId := level.itemId
          quantity := |variance|
          toPropertyId := if variance > 0 then some level.propertyId else none
          toUnitId := if variance > 0 then level.unitId else none
          toRoomId := if variance > 0 then level.roomId else none
          fromPropertyId := if variance < 0 then some level.propertyId else none
          fromUnitId := if variance < 0 then level.unitId else none
          fromRoomId := if variance < 0 then level.roomId else none
          stagingDesignId := none
          notes := none }
      ({ s₁ with transactions := s₁.transactions ++ [tx], nextTxId := s₁.nextTxId + 1 },
        .ok (level', variance))
    else
      (s₁, .ok (level', variance))

/-! ## TransactionService -/

/-- `TransactionService.processReceive` (`transaction.service.ts` lines
333-348): requires a destination property, then adds `quantity` at the
to-location (`toUnitId || undefined` coerces `""`/NULL to absent). -/
def processReceive (s : System) (tx : TransactionRec) : System × Except String Unit :=
  match tx.toPropertyId with
  | none => (s, .error "Destination property required for receive transaction")
  | some toPropertyId =>
    let r := adjustInventory s tx.itemId toPropertyId
      (jsStringOrNone tx.toUnitId) (jsStringOrNone tx.toRoomId) tx.quantity
    (r.1, r.2.map (fun _ => ()))

/-- `TransactionService.processConsume` (lines 353-368): subtracts `quantity`
at the from-location. -/
def processConsume (s : System) (tx : TransactionRec) : System × Except String Unit :=
  match tx.fromPropertyId with
  | none => (s, .error "Source property required for consume transaction")
  | some fromPropertyId =>
    let r := adjustInventory s tx.itemId fromPropertyId
      (jsStringOrNone tx.fromUnitId) (jsStringOrNone tx.fromRoomId) (-tx.quantity)
    (r.1, r.2.map (fun _ => ()))

/-- `TransactionService.processTransfer` (lines 373-399): subtract at the
source, then add at the destination — two separate `adjustInventory` calls
with no compensation: a failure of the second leg leaves the first applied. -/
def processTransfer (s : System) (tx : TransactionRec) : System × Except String Unit :=
  if tx.fromPropertyId = none ∨ tx.toPropertyId = none then
    (s, .error "Both source and destination properties required for transfer")
  else
    match adjustInventory s tx.itemId (tx.fromPropertyId.getD "")
      (jsStringOrNone tx.fromUnitId) (jsStringOrNone tx.fromRoomId) (-tx.quantity) with
    | (s₁, .error e) => (s₁, .error e)
    | (s₁, .ok _) =>
      let r := adjustInventory s₁ tx.itemId (tx.toPropertyId.getD "")
        (jsStringOrNone tx.toUnitId) (jsStringOrNone tx.toRoomId) tx.quantity
      (r.1, r.2.map (fun _ => ()))

/-- `TransactionService.processAdjust` (lines 404-425): the sign is inferred
from which side is populated (to-side positive, from-side negative). -/
def processAdjust (s : System) (tx : TransactionRec) : System × Except String Unit :=
  let propertyId := tx.toPropertyId <|> tx.fromPropertyId
  let unitId := tx.toUnitId <|> tx.fromUnitId
  let roomId := tx.toRoomId <|> tx.fromRoomId
  match propertyId with
  | none => (s, .error "Property required for adjustment")
  | some propertyId =>
    let quantity := if tx.toPropertyId.isSome then tx.quantity else -tx.quantity
    let r := adjustInventory s tx.itemId propertyId
      (jsStringOrNone unitId) (jsStringOrNone roomId) quantity
    (r.1, r.2.map (fun _ => ()))

/-- `TransactionService.processDamageOrDispose` (lines 430-455): subtract at
the from-location; DAMAGE additionally sets the item condition to DAMAGED. -/
def processDamageOrDispose (s : System) (tx : TransactionRec) : System × Except String Unit :=
  match tx.fromPropertyId with
  | none => (s, .error "Source property required for damage/dispose transaction")
  | some fromPropertyId =>
    match adjustInventory s tx.itemId fromPropertyId
      (jsStringOrNone tx.fromUnitId) (jsStringOrNone tx.fromRoomId) (-tx.quantity) with
    | (s₁, .error e) => (s₁, .error e)
    | (s₁, .ok _) =>
      if tx.ttype = .DAMAGE then
        ({ s₁ with items := s₁.items.map (fun it =>
            if it.id == tx.itemId then { it with condition := "DAMAGED" } else it) },
          .ok ())
      else
        (s₁, .ok ())

/-- `TransactionService.processAssign` (lines 460-473): requires a staging
design, then reserves at the from-location.  The code passes
`transaction.fromPropertyId` (possibly NULL) straight into the level lookup;
a NULL property matches no level (the column is non-nullable), which the
model expresses by failing the lookup. -/
def processAssign (s : System) (tx : TransactionRec) : System × Except String Unit :=
  match tx.stagingDesignId with
  | none => (s, .error "Staging design required for assign transaction")
  | some _ =>
    match tx.fromPropertyId with
    | none => (s, .error "Inventory level not found")
    | some fromPropertyId =>
      let r := reserveInventory s tx.itemId fromPropertyId tx.quantity
        (jsStringOrNone tx.fromUnitId) (jsStringOrNone tx.fromRoomId)
      (r.1, r.2.map (fun _ => ()))

/-- `TransactionService.processUnassign` (lines 478-487): releases the
reservation at the to-location. -/
def processUnassign (s : System) (tx : TransactionRec) : System × Except String Unit :=
  match tx.toPropertyId with
  | none => (s, .error "Inventory level not found")
  | some toPropertyId =>
    let r := releaseReservedInventory s tx.itemId toPropertyId tx.quantity
      (jsStringOrNone tx.toUnitId) (jsStringOrNone tx.toRoomId)
    (r.1, r.2.map (fun _ => ()))

/-- The `switch` on the transaction type inside `processTransaction`
(lines 235-260). -/
def dispatchTransaction (s : System) (tx : TransactionRec) : System × Except String Unit :=
  match tx.ttype with
  | .RECEIVE => processReceive s tx
  | .CONSUME => processConsume s tx
  | .TRANSFER => processTransfer s tx
  | .ADJUST => processAdjust s tx
  | .DAMAGE => processDamageOrDispose s tx
  | .DISPOSE => processDamageOrDispose s tx
  | .ASSIGN => processAssign s tx
  | .UNASSIGN => processUnassign s tx

/-- Replace the status (and optionally append to the notes) of the
transaction with the given id. -/
def markTransaction (s : System) (id : Nat) (status : TransactionStatus)
    (notes : Option String) : System :=
  { s with transactions := s.transactions.map (fun t =>
      if t.id == id then
        { t with status := status, notes := notes <|> t.notes }
      else t) }

/-- `TransactionService.processTransaction` (lines 216-284): guards —
unknown id, already COMPLETED, not APPROVED — then dispatches by type; on
handler success the transaction is marked COMPLETED, on handler failure it is
marked CANCELLED with `Processing failed: <error>` appended to its notes and
the error is rethrown.  The store accompanying an error includes every write
the failing handler already performed. -/
def processTransaction (s : System) (id : Nat) : System × Except String Unit :=
  match s.transactions.find? (fun t => t.id == id) with
  | none => (s, .error "Transaction not found")
  | some tx =>
    if tx.status = .COMPLETED then
      (s, .error "Transaction already completed")
    else if tx.status ≠ .APPROVED then
      (s, .error "Transaction must be approved before processing")
    else
      match dispatchTransaction s tx with
      | (s₁, .ok ()) =>
        (markTransaction s₁ id .COMPLETED none, .ok ())
      | (s₁, .error e) =>
        (markTransaction s₁ id .CANCELLED
          (some ((tx.notes.getD "") ++ "\nProcessing failed: " ++ e)), .error e)

/-! ## Operation sequences

Claims C1, C4 and C6 quantify over sequences of the public level-service
operations.  `LevelOp` names one call with its arguments; `runOps` folds a
sequence over a store, keeping whatever store each call returns (on a throw
that is the store as mutated up to the throw). -/

/-- One call to a public operation of `InventoryLevelService`. -/
inductive LevelOp
  | adjust (itemId propertyId : String) (unitId roomId : Option String) (quantity : ℚ)
  | reserve (itemId propertyId : String) (quantity : ℚ) (unitId roomId : Option String)
  | release (itemId propertyId : String) (quantity : ℚ) (unitId roomId : Option String)
  | update (levelId : Nat) (data : UpdateLevelData)
  | cycle (levelId : Nat) (countedQuantity : ℚ)

/-- Apply one operation, keeping the resulting store whether or not the call
threw. -/
def applyLevelOp (s : System) (op : LevelOp) : System :=
  match op with
  | .adjust itemId propertyId unitId roomId q =>
    (adjustInventory s itemId propertyId unitId roomId q).1
  | .reserve itemId propertyId q unitId roomId =>
    (reserveInventory s itemId propertyId q unitId roomId).1
  | .release itemId propertyId q unitId roomId =>
    (releaseReservedInventory s itemId propertyId q unitId roomId).1
  | .update levelId data => (updateLevel s levelId data).1
  | .cycle levelId counted => (cycleCount s levelId counted).1

/-- Run a sequence of level-service operations. -/
def runOps (s : System) (ops : List LevelOp) : System :=
  ops.foldl applyLevelOp s

/-! ## ForecastingService

`forecastDemand` is modelled as a pure function of the clock (`today`, a day
number), the ledger rows, the stored-forecast table, and the outcome of the
external Prophet call (`none` models any failure of that call: network,
non-2xx, timeout).  Dates are day numbers; `dayjs().format` day granularity
is primitive in the model. -/

/-- One point of a forecast curve (the Prophet response element shape, also
produced by the fallback). -/
structure ForecastPoint where
  date : Int
  predictedDemand : ℚ
  lowerBound : ℚ
  upperBound : ℚ
  confidence : ℚ
deriving DecidableEq, Repr

/-- The forecast payload (`forecastData`): either the Prophet response or the
fallback result. -/
structure ForecastData where
  forecasts : List ForecastPoint
  seasonalFactor : Option ℚ
  trendFactor : Option ℚ
  modelVersion : Option String
deriving DecidableEq, Repr

/-- A `DemandForecast` row, restricted to the columns the claims read. -/
structure StoredForecast where
  itemId : String
  propertyId : Option String
  forecastDate : Int
  periodStart : Int
  predictedDemand : ℚ
  lowerBound : ℚ
  upperBound : ℚ
  confidence : ℚ
  modelVersion : String
deriving DecidableEq, Repr

/-- `config.forecasting.historicalDays` = 90. -/
def config.forecasting.historicalDays : Nat := 90

/-- Add one ledger row into the daily-consumption map (a JS `Map` modelled as
an association list in insertion order): sum into an existing key, append a
new key otherwise. -/
def addConsumption (m : List (Int × ℚ)) (entry : Int × ℚ) : List (Int × ℚ) :=
  if m.any (fun p => p.1 == entry.1) then
    m.map (fun p => if p.1 == entry.1 then (p.1, p.2 + entry.2) else p)
  else
    m ++ [entry]

/-- `ForecastingService.getHistoricalConsumption`
(`forecasting.service.ts` lines 89-140): filter the ledger to COMPLETED
CONSUME rows in the trailing window (restricted to `fromPropertyId` when a
property scope is given), then build a *dense* daily series: every one of the
`days` trailing dates is first initialised to 0, actual consumption is summed
in on top, and the result is sorted by date.  The series therefore always has
at least `days` entries. -/
def getHistoricalConsumption (today : Int) (days : Nat)
    (propertyId : Option String) (ledger : List TransactionRec)
    (txDate : TransactionRec → Int) : List (Int × ℚ) :=
  let startDate := today - days
  let filtered := ledger.filter (fun t =>
    t.ttype == .CONSUME && t.status == .COMPLETED && startDate ≤ txDate t &&
      (match propertyId with
       | none => true
       | some p => t.fromPropertyId == some p))
  let init := (List.range days).map (fun (i : Nat) => (today - (i : Int), (0 : ℚ)))
  let filled := filtered.foldl (fun m t => addConsumption m (txDate t, t.quantity)) init
  filled.mergeSort (fun a b => a.1 ≤ b.1)

/-- `ForecastingService.simpleMovingAverageForecast` (lines 186-212): average
the last 14 entries of the dense series and project it flat over the horizon
with a ±30% band, confidence 0.6 and model version `simple-ma`. -/
def simpleMovingAverageForecast (today : Int)
    (historicalData : List (Int × ℚ)) (periods : Nat) : ForecastData :=
  let recentData := historicalData.drop (historicalData.length - 14)
  let avgDemand := (recentData.map (fun p => p.2)).sum / (recentData.length : ℚ)
  let forecasts := (List.range periods).map (fun (i : Nat) =>
    { date := today + (i + 1 : Int)
      predictedDemand := avgDemand
      lowerBound := avgDemand * (7/10)
      upperBound := avgDemand * (13/10)
      confidence := 3/5 : ForecastPoint })
  { forecasts := forecasts
    seasonalFactor := some 1
    trendFactor := some 1
    modelVersion := some "simple-ma" }

/-- `ForecastingService.storeForecastResults` (lines 145-181): map the
forecast points to `DemandForecast` rows (model version defaulting to
`prophet-v1` when the payload has none), delete stored rows for this
(item, property) older than 7 days, then insert the new rows. -/
def storeForecastResults (store : List StoredForecast) (today : Int)
    (itemId : String) (propertyId : Option String)
    (forecastData : ForecastData) : List StoredForecast :=
  let rows := forecastData.forecasts.map (fun f =>
    { itemId := itemId
      propertyId := jsStringOrNone propertyId
      forecastDate := today
      periodStart := f.date
      predictedDemand := f.predictedDemand
      lowerBound := f.lowerBound
      upperBound := f.upperBound
      confidence := f.confidence
      modelVersion := forecastData.modelVersion.getD "prophet-v1" : StoredForecast })
  let purged := store.filter (fun r => !(
    r.itemId == itemId && r.propertyId == jsStringOrNone propertyId &&
      r.forecastDate < today - 7))
  purged ++ rows

/-- `ForecastingService.forecastDemand` (lines 13-84), up to the safety-stock
numbers (which use `Math.sqrt` and are read by no claim): validate the item,
pull the dense consumption history, fail when it has fewer than 7 entries,
use the Prophet response or — when that call failed (`prophetResponse =
none`) — the moving-average fallback, and persist the result.  Returns the
updated forecast table and the forecast payload. -/
def forecastDemand (today : Int) (itemId : String) (propertyId : Option String)
    (periodDays : Nat) (itemExists : Bool)
    (ledger : List TransactionRec) (txDate : TransactionRec → Int)
    (prophetResponse : Option ForecastData) (store : List StoredForecast) :
    List StoredForecast × Except String ForecastData :=
  if !itemExists then
    (store, .error "Item not found")
  else
    let historicalData :=
      getHistoricalConsumption today config.forecasting.historicalDays propertyId ledger txDate
    if historicalData.length < 7 then
      (store, .error "Insufficient historical data for forecasting (minimum 7 days required)")
    else
      let forecastData :=
        match prophetResponse with
        | some d => d
        | none => simpleMovingAverageForecast today historicalData periodDays
      (storeForecastResults store today itemId propertyId forecastData, .ok forecastData)

/-! ## Invariants of the level engine -/

/-- The derived-quantity equation of claim C1:
`quantityAvailable = quantityOnHand - quantityReserved`. -/
def LevelEq (l : InventoryLevel) : Prop :=
  l.quantityAvailable = l.quantityOnHand - l.quantityReserved

/-- Number of unresolved alerts stored for an (itemId, levelId) pair. -/
def countUnresolved (alerts : List StockAlert) (itemId : String) (levelId : Nat) : Nat :=
  (alerts.filter (unresolvedFor itemId levelId)).length

/-- The state invariant carried through every level-service operation: every
stored level satisfies the derived-quantity equation, and every
(itemId, levelId) pair has at most one unresolved alert. -/
def SysInv (s : System) : Prop :=
  (∀ l ∈ s.levels, LevelEq l) ∧ ∀ i n, countUnresolved s.alerts i n ≤ 1

theorem initSystem_inv (items : List Item) : SysInv (initSystem items) := by
  constructor
  · intro l hl
    simp [initSystem] at hl
  · intro i n
    simp [initSystem, countUnresolved]

theorem updateLevel_alerts (s : System) (id : Nat) (data : UpdateLevelData) :
    (updateLevel s id data).1.alerts = s.alerts := by
  unfold updateLevel
  cases s.levels.find? (fun l => l.id == id) <;> rfl

theorem updateLevel_levelEq (s : System) (id : Nat) (data : UpdateLevelData)
    (h : ∀ l ∈ s.levels, LevelEq l) :
    ∀ l ∈ (updateLevel s id data).1.levels, LevelEq l := by
  unfold updateLevel
  cases hf : s.levels.find? (fun l => l.id == id) with
  | none => exact h
  | some level =>
    intro l hl
    simp only [List.mem_map] at hl
    obtain ⟨x, hx, rfl⟩ := hl
    by_cases hid : x.id == id
    · simp only [hid, if_pos]
      rfl
    · simp only [hid, Bool.false_eq_true, if_neg, if_false]
      exact h x hx

theorem createLevel_alerts (s : System) (itemId propertyId : String)
    (unitId roomId : Option String) (q : ℚ) :
    (createLevel s itemId propertyId unitId roomId q).1.alerts = s.alerts := by
  unfold createLevel
  cases s.items.find? (fun it => it.id == itemId) <;> rfl

theorem createLevel_levelEq (s : System) (itemId propertyId : String)
    (unitId roomId : Option String) (q : ℚ)
    (h : ∀ l ∈ s.levels, LevelEq l) :
    ∀ l ∈ (createLevel s itemId propertyId unitId roomId q).1.levels, LevelEq l := by
  unfold createLevel
  cases hf : s.items.find? (fun it => it.id == itemId) with
  | none => exact h
  | some item =>
    intro l hl
    simp only [List.mem_append, List.mem_singleton] at hl
    rcases hl with hl | rfl
    · exact h l hl
    · show (q : ℚ) = q - 0
      simp

theorem cycleCount_alerts (s : System) (levelId : Nat) (counted : ℚ) :
    (cycleCount s levelId counted).1.alerts = s.alerts := by
  unfold cycleCount
  cases s.levels.find? (fun l => l.id == levelId) with
  | none => rfl
  | some level =>
    by_cases h : counted - level.quantityOnHand ≠ 0 <;> simp [h]

theorem cycleCount_levelEq (s : System) (levelId : Nat) (counted : ℚ)
    (h : ∀ l ∈ s.levels, LevelEq l) :
    ∀ l ∈ (cycleCount s levelId counted).1.levels, LevelEq l := by
  unfold cycleCount
  cases hf : s.levels.find? (fun l => l.id == levelId) with
  | none => exact h
  | some level =>
    have key : ∀ l ∈ s.levels.map (fun l =>
        if l.id == levelId then
          { level with
            quantityOnHand := counted
            quantityAvailable := counted - level.quantityReserved }
        else l), LevelEq l := by
      intro l hl
      simp only [List.mem_map] at hl
      obtain ⟨x, hx, rfl⟩ := hl
      by_cases hid : x.id == levelId
      · simp only [hid, if_pos]
        rfl
      · simp only [hid, Bool.false_eq_true, if_neg, if_false]
        exact h x hx
    by_cases hv : counted - level.quantityOnHand ≠ 0 <;> simpa [hv] using key

theorem countUnresolved_append (xs ys : List StockAlert) (i : String) (n : Nat) :
    countUnresolved (xs ++ ys) i n = countUnresolved xs i n + countUnresolved ys i n := by
  simp [countUnresolved, List.filter_append]

theorem checkAndCreateAlert_levels (s : System) (lvl : InventoryLevel) :
    (checkAndCreateAlert s lvl).levels = s.levels := by
  unfold checkAndCreateAlert
  split
  · cases s.alerts.find? (unresolvedFor lvl.itemId lvl.id) <;> rfl
  · rfl

theorem checkAndCreateAlert_transactions (s : System) (lvl : InventoryLevel) :
    (checkAndCreateAlert s lvl).transactions = s.transactions := by
  unfold checkAndCreateAlert
  split
  · cases s.alerts.find? (unresolvedFor lvl.itemId lvl.id) <;> rfl
  · rfl

theorem countUnresolved_singleton_created (lvl : InventoryLevel)
    (i : String) (n : Nat) :
    countUnresolved [createdAlert lvl] i n =
      if lvl.itemId = i ∧ lvl.id = n then 1 else 0 := by
  by_cases h : lvl.itemId = i ∧ lvl.id = n
  · simp [countUnresolved, unresolvedFor, createdAlert, h.1, h.2]
  · rcases not_and_or.mp h with h1 | h1 <;>
      simp [countUnresolved, unresolvedFor, createdAlert, h1]

theorem checkAndCreateAlert_le_one (s : System) (lvl : InventoryLevel)
    (h : ∀ i n, countUnresolved s.alerts i n ≤ 1) :
    ∀ i n, countUnresolved (checkAndCreateAlert s lvl).alerts i n ≤ 1 := by
  intro i n
  unfold checkAndCreateAlert
  split
  · cases hf : s.alerts.find? (unresolvedFor lvl.itemId lvl.id) with
    | some a => exact h i n
    | none =>
      show countUnresolved (s.alerts ++ [_]) i n ≤ 1
      rw [countUnresolved_append, countUnresolved_singleton_created]
      by_cases hin : lvl.itemId = i ∧ lvl.id = n
      · have hzero : countUnresolved s.alerts i n = 0 := by
          have hall := List.find?_eq_none.mp hf
          have : s.alerts.filter (unresolvedFor i n) = [] := by
            refine List.filter_eq_nil_iff.mpr ?_
            intro x hx
            rw [← hin.1, ← hin.2]
            exact hall x hx
          simp [countUnresolved, this]
        simp [hzero, hin]
      · simp only [hin, if_neg, if_false]
        simpa using h i n
  · exact h i n

theorem checkAndCreateAlert_eq_one (s : System) (lvl : InventoryLevel)
    (hlv : lvl.alertLevel = .CRITICAL ∨ lvl.alertLevel = .LOW)
    (h : countUnresolved s.alerts lvl.itemId lvl.id ≤ 1) :
    countUnresolved (checkAndCreateAlert s lvl).alerts lvl.itemId lvl.id = 1 := by
  unfold checkAndCreateAlert
  rw [if_pos hlv]
  cases hf : s.alerts.find? (unresolvedFor lvl.itemId lvl.id) with
  | some a =>
    have ha := List.find?_some hf
    have hmem := List.mem_of_find?_eq_some hf
    have hpos : 0 < countUnresolved s.alerts lvl.itemId lvl.id := by
      have : a ∈ s.alerts.filter (unresolvedFor lvl.itemId lvl.id) :=
        List.mem_filter.mpr ⟨hmem, ha⟩
      have := List.length_pos.mpr (List.ne_nil_of_mem this)
      simpa [countUnresolved] using this
    show countUnresolved s.alerts lvl.itemId lvl.id = 1
    omega
  | none =>
    show countUnresolved (s.alerts ++ [_]) lvl.itemId lvl.id = 1
    rw [countUnresolved_append, countUnresolved_singleton_created]
    have hzero : countUnresolved s.alerts lvl.itemId lvl.id = 0 := by
      have hall := List.find?_eq_none.mp hf
      have : s.alerts.filter (unresolvedFor lvl.itemId lvl.id) = [] :=
        List.filter_eq_nil_iff.mpr hall
      simp [countUnresolved, this]
    simp [hzero]

theorem updateLevel_inv (s : System) (id : Nat) (data : UpdateLevelData)
    (h : SysInv s) : SysInv (updateLevel s id data).1 := by
  refine ⟨updateLevel_levelEq s id data h.1, ?_⟩
  intro i n
  rw [updateLevel_alerts]
  exact h.2 i n

theorem createLevel_inv (s : System) (itemId propertyId : String)
    (unitId roomId : Option String) (q : ℚ)
    (h : SysInv s) : SysInv (createLevel s itemId propertyId unitId roomId q).1 := by
  refine ⟨createLevel_levelEq s itemId propertyId unitId roomId q h.1, ?_⟩
  intro i n
  rw [createLevel_alerts]
  exact h.2 i n

theorem cycleCount_inv (s : System) (levelId : Nat) (counted : ℚ)
    (h : SysInv s) : SysInv (cycleCount s levelId counted).1 := by
  refine ⟨cycleCount_levelEq s levelId counted h.1, ?_⟩
  intro i n
  rw [cycleCount_alerts]
  exact h.2 i n

theorem checkAndCreateAlert_inv (s : System) (lvl : InventoryLevel)
    (h : SysInv s) : SysInv (checkAndCreateAlert s lvl) := by
  refine ⟨?_, checkAndCreateAlert_le_one s lvl h.2⟩
  rw [checkAndCreateAlert_levels]
  exact h.1

theorem adjustInventoryGo_inv (s : System) (level : InventoryLevel)
    (itemId propertyId : String) (unitId roomId : Option String) (q : ℚ)
    (h : SysInv s) :
    SysInv (adjustInventoryGo s level itemId propertyId unitId roomId q).1 := by
  unfold adjustInventoryGo
  dsimp only
  split
  · exact h
  · split
    · next s₁ e heq =>
      have h₁ := updateLevel_inv s level.id
        { quantityOnHand := some (level.quantityOnHand + q) } h
      rw [heq] at h₁
      exact h₁
    · next s₁ updated heq =>
      have h₁ := updateLevel_inv s level.id
        { quantityOnHand := some (level.quantityOnHand + q) } h
      rw [heq] at h₁
      refine checkAndCreateAlert_inv _ updated ⟨?_, ?_⟩
      · exact h₁.1
      · exact h₁.2

theorem adjustInventory_inv (s : System) (itemId propertyId : String)
    (unitId roomId : Option String) (q : ℚ) (h : SysInv s) :
    SysInv (adjustInventory s itemId propertyId unitId roomId q).1 := by
  unfold adjustInventory
  split
  · exact adjustInventoryGo_inv _ _ _ _ _ _ _ h
  · split
    · next s₁ e heq =>
      have h₁ := createLevel_inv s itemId propertyId unitId roomId 0 h
      rw [heq] at h₁
      exact h₁
    · next s₁ level heq =>
      have h₁ := createLevel_inv s itemId propertyId unitId roomId 0 h
      rw [heq] at h₁
      exact adjustInventoryGo_inv _ _ _ _ _ _ _ h₁

theorem reserveInventory_inv (s : System) (itemId propertyId : String) (q : ℚ)
    (unitId roomId : Option String) (h : SysInv s) :
    SysInv (reserveInventory s itemId propertyId q unitId roomId).1 := by
  unfold reserveInventory
  split
  · exact h
  · split
    · exact h
    · exact updateLevel_inv _ _ _ h

theorem releaseReservedInventory_inv (s : System) (itemId propertyId : String) (q : ℚ)
    (unitId roomId : Option String) (h : SysInv s) :
    SysInv (releaseReservedInventory s itemId propertyId q unitId roomId).1 := by
  unfold releaseReservedInventory
  split
  · exact h
  · split
    · exact h
    · exact updateLevel_inv _ _ _ h

theorem applyLevelOp_inv (s : System) (op : LevelOp) (h : SysInv s) :
    SysInv (applyLevelOp s op) := by
  cases op with
  | adjust itemId propertyId unitId roomId q =>
    exact adjustInventory_inv s itemId propertyId unitId roomId q h
  | reserve itemId propertyId q unitId roomId =>
    exact reserveInventory_inv s itemId propertyId q unitId roomId h
  | release itemId propertyId q unitId roomId =>
    exact releaseReservedInventory_inv s itemId propertyId q unitId roomId h
  | update levelId data => exact updateLevel_inv s levelId data h
  | cycle levelId counted => exact cycleCount_inv s levelId counted h

theorem runOps_inv (s : System) (ops : List LevelOp) (h : SysInv s) :
    SysInv (runOps s ops) := by
  induction ops generalizing s with
  | nil => exact h
  | cons op rest ih => exact ih _ (applyLevelOp_inv s op h)

/-! ## Shape lemmas for the service operations -/

theorem updateLevel_transactions (s : System) (id : Nat) (data : UpdateLevelData) :
    (updateLevel s id data).1.transactions = s.transactions := by
  unfold updateLevel
  cases s.levels.find? (fun l => l.id == id) <;> rfl

theorem updateLevel_error (s : System) (id : Nat) (data : UpdateLevelData)
    (s₁ : System) (e : String)
    (h : updateLevel s id data = (s₁, .error e)) :
    s₁ = s ∧ e = "Inventory level not found" := by
  unfold updateLevel at h
  cases hf : s.levels.find? (fun l => l.id == id) <;> rw [hf] at h
  · injection h with h1 h2
    injection h2 with h3
    exact ⟨h1.symm, h3.symm⟩
  · injection h with h1 h2
    exact absurd h2 (by simp)

theorem updateLevel_ok (s : System) (id : Nat) (data : UpdateLevelData)
    (s₁ : System) (lvl : InventoryLevel)
    (h : updateLevel s id data = (s₁, .ok lvl)) :
    s₁.transactions = s.transactions ∧ s₁.alerts = s.alerts ∧
      s₁.items = s.items ∧ s₁.nextTxId = s.nextTxId := by
  unfold updateLevel at h
  cases hf : s.levels.find? (fun l => l.id == id) <;> rw [hf] at h
  · injection h with h1 h2
    exact absurd h2 (by simp)
  · injection h with h1 h2
    rw [← h1]
    exact ⟨rfl, rfl, rfl, rfl⟩

theorem createLevel_error (s : System) (itemId propertyId : String)
    (unitId roomId : Option String) (q : ℚ) (s₁ : System) (e : String)
    (h : createLevel s itemId propertyId unitId roomId q = (s₁, .error e)) :
    s₁ = s ∧ e = "Item not found" := by
  unfold createLevel at h
  cases hf : s.items.find? (fun it => it.id == itemId) <;> rw [hf] at h
  · injection h with h1 h2
    injection h2 with h3
    exact ⟨h1.symm, h3.symm⟩
  · injection h with h1 h2
    exact absurd h2 (by simp)

theorem createLevel_ok (s : System) (itemId propertyId : String)
    (unitId roomId : Option String) (q : ℚ) (s₁ : System) (lvl : InventoryLevel)
    (h : createLevel s itemId propertyId unitId roomId q = (s₁, .ok lvl)) :
    s₁.levels = s.levels ++ [lvl] ∧ s₁.transactions = s.transactions ∧
      s₁.alerts = s.alerts ∧ s₁.items = s.items ∧ s₁.nextTxId = s.nextTxId ∧
      lvl.quantityOnHand = q ∧ lvl.quantityReserved = 0 := by
  unfold createLevel at h
  cases hf : s.items.find? (fun it => it.id == itemId) <;> rw [hf] at h
  · injection h with h1 h2
    exact absurd h2 (by simp)
  · injection h with h1 h2
    injection h2 with h3
    rw [← h1, ← h3]
    exact ⟨rfl, rfl, rfl, rfl, rfl, rfl, rfl⟩

theorem adjustInventoryGo_insufficient (s : System) (level : InventoryLevel)
    (itemId propertyId : String) (unitId roomId : Option String) (q : ℚ)
    (s' : System)
    (h : adjustInventoryGo s level itemId propertyId unitId roomId q =
      (s', .error "Insufficient inventory quantity")) :
    s' = s := by
  unfold adjustInventoryGo at h
  dsimp only at h
  split at h
  · injection h with h1 h2
    exact h1.symm
  · rcases hu : updateLevel s level.id
        { quantityOnHand := some (level.quantityOnHand + q) } with ⟨s₁, e | lvl'⟩ <;>
      rw [hu] at h <;> dsimp only at h
    · injection h with h1 h2
      injection h2 with h3
      exact absurd ((updateLevel_error _ _ _ _ _ hu).2.symm.trans h3) (by decide)
    · injection h with h1 h2
      exact absurd h2 (by simp)

theorem adjustInventoryGo_ok (s : System) (level : InventoryLevel)
    (itemId propertyId : String) (unitId roomId : Option String) (q : ℚ)
    (s' : System) (lvl : InventoryLevel)
    (h : adjustInventoryGo s level itemId propertyId unitId roomId q =
      (s', .ok lvl)) :
    ∃ s₁, updateLevel s level.id
        { quantityOnHand := some (level.quantityOnHand + q) } = (s₁, .ok lvl) ∧
      s' = checkAndCreateAlert (afterAdjustTx s₁ itemId propertyId unitId roomId q) lvl := by
  unfold adjustInventoryGo at h
  dsimp only at h
  split at h
  · injection h with h1 h2
    exact absurd h2 (by simp)
  · rcases hu : updateLevel s level.id
        { quantityOnHand := some (level.quantityOnHand + q) } with ⟨s₁, e | lvl'⟩ <;>
      rw [hu] at h <;> dsimp only at h
    · injection h with h1 h2
      exact absurd h2 (by simp)
    · injection h with h1 h2
      injection h2 with h3
      subst h3
      exact ⟨s₁, rfl, h1.symm⟩

theorem adjustInventory_ok_alerts (s : System) (itemId propertyId : String)
    (unitId roomId : Option String) (q : ℚ) (s' : System) (lvl : InventoryLevel)
    (h : adjustInventory s itemId propertyId unitId roomId q = (s', .ok lvl)) :
    ∃ s₂, s₂.alerts = s.alerts ∧ s' = checkAndCreateAlert s₂ lvl := by
  unfold adjustInventory at h
  rcases hg : getLevelByLocation s itemId propertyId unitId roomId with _ | level <;>
    rw [hg] at h <;> dsimp only at h
  · rcases hc : createLevel s itemId propertyId unitId roomId 0 with ⟨s₁, e | level⟩ <;>
      rw [hc] at h <;> dsimp only at h
    · injection h with h1 h2
      exact absurd h2 (by simp)
    · obtain ⟨s₂, hu, rfl⟩ := adjustInventoryGo_ok _ _ _ _ _ _ _ _ _ h
      refine ⟨afterAdjustTx s₂ itemId propertyId unitId roomId q, ?_, rfl⟩
      show s₂.alerts = s.alerts
      rw [(updateLevel_ok _ _ _ _ _ hu).2.1]
      exact (createLevel_ok _ _ _ _ _ _ _ _ hc).2.2.1
  · obtain ⟨s₁, hu, rfl⟩ := adjustInventoryGo_ok _ _ _ _ _ _ _ _ _ h
    refine ⟨afterAdjustTx s₁ itemId propertyId unitId roomId q, ?_, rfl⟩
    show s₁.alerts = s.alerts
    exact (updateLevel_ok _ _ _ _ _ hu).2.1

theorem adjustInventoryGo_ok_transactions (s s' : System) (level lvl : InventoryLevel)
    (itemId propertyId : String) (unitId roomId : Option String) (q : ℚ)
    (hgo : adjustInventoryGo s level itemId propertyId unitId roomId q = (s', .ok lvl)) :
    ∃ t, s'.transactions = s.transactions ++ [t] ∧
      t.ttype = .ADJUST ∧ t.status = .COMPLETED ∧ t.itemId = itemId ∧
      t.quantity = |q| ∧
      (q > 0 → t.toPropertyId = some propertyId ∧ t.fromPropertyId = none) ∧
      (q < 0 → t.fromPropertyId = some propertyId ∧ t.toPropertyId = none) := by
  obtain ⟨s₁, hu, rfl⟩ := adjustInventoryGo_ok _ _ _ _ _ _ _ _ _ hgo
  refine ⟨adjustTxRecord s₁ itemId propertyId unitId roomId q, ?_, rfl, rfl, rfl, rfl, ?_, ?_⟩
  · rw [checkAndCreateAlert_transactions]
    show s₁.transactions ++ _ = s.transactions ++ _
    rw [(updateLevel_ok _ _ _ _ _ hu).1]
  · intro hq
    constructor
    · show (if q > 0 then some propertyId else none) = some propertyId
      rw [if_pos hq]
    · show (if q < 0 then some propertyId else none) = none
      rw [if_neg (by linarith)]
  · intro hq
    constructor
    · show (if q < 0 then some propertyId else none) = some propertyId
      rw [if_pos hq]
    · show (if q > 0 then some propertyId else none) = none
      rw [if_neg (by linarith)]

theorem adjustInventory_ok_transactions (s : System) (itemId propertyId : String)
    (unitId roomId : Option String) (q : ℚ) (s' : System) (lvl : InventoryLevel)
    (h : adjustInventory s itemId propertyId unitId roomId q = (s', .ok lvl)) :
    ∃ t, s'.transactions = s.transactions ++ [t] ∧
      t.ttype = .ADJUST ∧ t.status = .COMPLETED ∧ t.itemId = itemId ∧
      t.quantity = |q| ∧
      (q > 0 → t.toPropertyId = some propertyId ∧ t.fromPropertyId = none) ∧
      (q < 0 → t.fromPropertyId = some propertyId ∧ t.toPropertyId = none) := by
  unfold adjustInventory at h
  rcases hg : getLevelByLocation s itemId propertyId unitId roomId with _ | level <;>
    rw [hg] at h <;> dsimp only at h
  · rcases hc : createLevel s itemId propertyId unitId roomId 0 with ⟨s₁, e | level⟩ <;>
      rw [hc] at h <;> dsimp only at h
    · injection h with h1 h2
      exact absurd h2 (by simp)
    · obtain ⟨t, ht, rest⟩ := adjustInventoryGo_ok_transactions _ _ _ _ _ _ _ _ _ h
      rw [(createLevel_ok _ _ _ _ _ _ _ _ hc).2.1] at ht
      exact ⟨t, ht, rest⟩
  · exact adjustInventoryGo_ok_transactions _ _ _ _ _ _ _ _ _ h

/-! ## Non-negativity of on-hand under adjust sequences -/

theorem updateLevel_onHand_nonneg (s : System) (id : Nat) (nq : ℚ) (h0 : 0 ≤ nq)
    (h : ∀ l ∈ s.levels, 0 ≤ l.quantityOnHand) :
    ∀ l ∈ (updateLevel s id { quantityOnHand := some nq }).1.levels,
      0 ≤ l.quantityOnHand := by
  unfold updateLevel
  cases hf : s.levels.find? (fun l => l.id == id) with
  | none => exact h
  | some level =>
    intro l hl
    simp only [List.mem_map] at hl
    obtain ⟨x, hx, rfl⟩ := hl
    by_cases hid : x.id == id
    · simp only [hid, if_pos]
      exact h0
    · simp only [hid, Bool.false_eq_true, if_neg, if_false]
      exact h x hx

theorem createLevel_nonneg (s : System) (itemId propertyId : String)
    (unitId roomId : Option String) (q : ℚ) (h0 : 0 ≤ q)
    (h : ∀ l ∈ s.levels, 0 ≤ l.quantityOnHand) :
    ∀ l ∈ (createLevel s itemId propertyId unitId roomId q).1.levels,
      0 ≤ l.quantityOnHand := by
  unfold createLevel
  cases hf : s.items.find? (fun it => it.id == itemId) with
  | none => exact h
  | some item =>
    intro l hl
    simp only [List.mem_append, List.mem_singleton] at hl
    rcases hl with hl | rfl
    · exact h l hl
    · exact h0

theorem adjustInventoryGo_nonneg (s : System) (level : InventoryLevel)
    (itemId propertyId : String) (unitId roomId : Option String) (q : ℚ)
    (h : ∀ l ∈ s.levels, 0 ≤ l.quantityOnHand) :
    ∀ l ∈ (adjustInventoryGo s level itemId propertyId unitId roomId q).1.levels,
      0 ≤ l.quantityOnHand := by
  unfold adjustInventoryGo
  dsimp only
  split
  · exact h
  · next hneg =>
    rcases hu : updateLevel s level.id
        { quantityOnHand := some (level.quantityOnHand + q) } with ⟨s₁, e | lvl'⟩ <;>
      dsimp only
    · rcases updateLevel_error _ _ _ _ _ hu with ⟨rfl, _⟩
      exact h
    · have h₁ := updateLevel_onHand_nonneg s level.id (level.quantityOnHand + q)
        (by linarith) h
      rw [hu] at h₁
      intro l hl
      rw [checkAndCreateAlert_levels] at hl
      exact h₁ l hl

theorem adjustInventory_nonneg (s : System) (itemId propertyId : String)
    (unitId roomId : Option String) (q : ℚ)
    (h : ∀ l ∈ s.levels, 0 ≤ l.quantityOnHand) :
    ∀ l ∈ (adjustInventory s itemId propertyId unitId roomId q).1.levels,
      0 ≤ l.quantityOnHand := by
  unfold adjustInventory
  rcases hg : getLevelByLocation s itemId propertyId unitId roomId with _ | level <;>
    dsimp only
  · rcases hc : createLevel s itemId propertyId unitId roomId 0 with ⟨s₁, e | level⟩ <;>
      dsimp only
    · rcases createLevel_error _ _ _ _ _ _ _ _ hc with ⟨rfl, _⟩
      exact h
    · have h₁ := createLevel_nonneg s itemId propertyId unitId roomId 0 le_rfl h
      rw [hc] at h₁
      exact adjustInventoryGo_nonneg s₁ level itemId propertyId unitId roomId q h₁
  · exact adjustInventoryGo_nonneg s level itemId propertyId unitId roomId q h

/-- One `adjust` call of claim C4's adjust-only sequences. -/
structure AdjustCall where
  itemId : String
  propertyId : String
  unitId : Option String
  roomId : Option String
  quantity : ℚ

/-- Run a sequence of `adjustInventory` calls. -/
def runAdjusts (s : System) (calls : List AdjustCall) : System :=
  calls.foldl (fun s c =>
    (adjustInventory s c.itemId c.propertyId c.unitId c.roomId c.quantity).1) s

theorem runAdjusts_nonneg (s : System) (calls : List AdjustCall)
    (h : ∀ l ∈ s.levels, 0 ≤ l.quantityOnHand) :
    ∀ l ∈ (runAdjusts s calls).levels, 0 ≤ l.quantityOnHand := by
  induction calls generalizing s with
  | nil => exact h
  | cons c rest ih =>
    exact ih _ (adjustInventory_nonneg s c.itemId c.propertyId c.unitId c.roomId c.quantity h)

theorem adjustInventory_insufficient (s : System) (itemId propertyId : String)
    (unitId roomId : Option String) (q : ℚ) (s' : System)
    (h : adjustInventory s itemId propertyId unitId roomId q =
      (s', .error "Insufficient inventory quantity")) :
    s'.transactions = s.transactions ∧ s'.alerts = s.alerts ∧
      (s'.levels = s.levels ∨
        ∃ lvl, s'.levels = s.levels ++ [lvl] ∧
          lvl.quantityOnHand = 0 ∧ lvl.quantityReserved = 0) := by
  unfold adjustInventory at h
  rcases hg : getLevelByLocation s itemId propertyId unitId roomId with _ | level <;>
    rw [hg] at h <;> dsimp only at h
  · rcases hc : createLevel s itemId propertyId unitId roomId 0 with ⟨s₁, e | level⟩ <;>
      rw [hc] at h <;> dsimp only at h
    · injection h with h1 h2
      injection h2 with h3
      exact absurd (h3.symm.trans (createLevel_error _ _ _ _ _ _ _ _ hc).2) (by decide)
    · have hins := adjustInventoryGo_insufficient s₁ level itemId propertyId unitId roomId q s' h
      subst hins
      obtain ⟨hlv, htr, hal, _, _, hoh, hrv⟩ := createLevel_ok _ _ _ _ _ _ _ _ hc
      exact ⟨htr, hal, Or.inr ⟨level, hlv, hoh, hrv⟩⟩
  · have hins := adjustInventoryGo_insufficient s level itemId propertyId unitId roomId q s' h
    subst hins
    exact ⟨rfl, rfl, Or.inl rfl⟩

/-! ## Demonstration stores used by concrete theorems -/

/-- A catalog item with no alert thresholds (reorderPoint 0 keeps every level
NORMAL, so alert bookkeeping stays out of quantity scenarios). -/
def demoItem : Item :=
  { id := "item-1", reorderPoint := some 0, maxQuantity := none, condition := "GOOD" }

/-- A catalog item with reorderPoint 10, for alert scenarios. -/
def alertItem : Item :=
  { id := "item-2", reorderPoint := some 10, maxQuantity := none, condition := "GOOD" }

/-- The operation sequence of the C1 counterexample: stock 10, reserve 5 of
them, then adjust by -8.  Every call succeeds, yet afterwards 5 units are
reserved out of an on-hand of 2. -/
def c1Ops : List LevelOp :=
  [ .adjust "item-1" "prop-1" none none 10
  , .reserve "item-1" "prop-1" 5 none none
  , .adjust "item-1" "prop-1" none none (-8) ]

def c1System : System := runOps (initSystem [demoItem]) c1Ops

/-- The single level of `c1System` after the three calls. -/
def c1Level : InventoryLevel :=
  { id := 0, itemId := "item-1", propertyId := "prop-1", unitId := none, roomId := none
    quantityOnHand := 2, quantityReserved := 5, quantityAvailable := -3
    reorderPoint := some 0, maxQuantity := none, alertLevel := .NORMAL }

/-! ## Claim C1 -/

/-- C1 counterexample: the state reached from a fresh store by the operation
sequence `c1Ops` (adjust +10, reserve 5, adjust -8, all succeeding) has its
only level at quantityOnHand 2 with quantityReserved 5, so the claimed
invariant `quantityReserved ≤ quantityOnHand` fails on a reachable state:
`adjustInventory` guards only against negative on-hand, not against dropping
on-hand below the reserved quantity. -/
theorem c1_counterexample :
    c1System.levels = [c1Level] ∧
    (c1System.levels.all fun l => decide (l.quantityReserved ≤ l.quantityOnHand)) = false := by
  with_unfolding_all decide

/-- C1 (amended): of the claimed invariant, only the derived-quantity
equation holds: in every state reachable from a fresh store by any sequence
of adjustInventory, reserveInventory, releaseReservedInventory, updateLevel
and cycleCount calls, every level satisfies
`quantityAvailable = quantityOnHand - quantityReserved`;
`quantityReserved ≤ quantityOnHand` is not an invariant. -/
theorem c1_available_equation (items : List Item) (ops : List LevelOp) :
    ∀ l ∈ (runOps (initSystem items) ops).levels,
      l.quantityAvailable = l.quantityOnHand - l.quantityReserved :=
  (runOps_inv (initSystem items) ops (initSystem_inv items)).1

/-- Witness for C1: the amended equation, instantiated at the concrete store
`c1System` and its level. -/
theorem c1_witness :
    c1Level ∈ c1System.levels ∧
      c1Level.quantityAvailable = c1Level.quantityOnHand - c1Level.quantityReserved := by
  have hm : c1Level ∈ c1System.levels := by with_unfolding_all decide
  exact ⟨hm, c1_available_equation [demoItem] c1Ops c1Level hm⟩

/-! ## Claim C4 -/

/-- The C4 counterexample run: an adjust by -1 at a location that has no
level yet. -/
def c4Run : System × Except String InventoryLevel :=
  adjustInventory (initSystem [demoItem]) "item-1" "prop-1" none none (-1)

/-- C4 counterexample: when no level exists at the target location,
`adjustInventory` creates a fresh zero-quantity level *before* checking the
insufficient-quantity guard, so a rejected call is not mutation-free: the
call fails with the insufficient-stock error yet leaves a newly created
inventory level behind (the claim says "no inventory level is created"). -/
theorem c4_counterexample :
    c4Run.2 = .error "Insufficient inventory quantity" ∧
      (initSystem [demoItem]).levels.length = 0 ∧ c4Run.1.levels.length = 1 := by
  with_unfolding_all decide

/-- C4 (amended): a rejected `adjustInventory` call changes no existing
level, writes no transaction record and creates no alert; the only possible
mutation is the lazy creation of a fresh level with zero on-hand and zero
reserved at a location that had none.  Consequently, over all sequences of
adjust calls on a fresh store, `quantityOnHand` never goes negative. -/
theorem c4_theorem :
    (∀ s itemId propertyId unitId roomId q s',
      adjustInventory s itemId propertyId unitId roomId q =
        (s', .error "Insufficient inventory quantity") →
      s'.transactions = s.transactions ∧ s'.alerts = s.alerts ∧
        (s'.levels = s.levels ∨
          ∃ lvl, s'.levels = s.levels ++ [lvl] ∧
            lvl.quantityOnHand = 0 ∧ lvl.quantityReserved = 0)) ∧
    (∀ items calls, ∀ l ∈ (runAdjusts (initSystem items) calls).levels,
      0 ≤ l.quantityOnHand) := by
  constructor
  · intro s itemId propertyId unitId roomId q s' h
    exact adjustInventory_insufficient s itemId propertyId unitId roomId q s' h
  · intro items calls
    exact runAdjusts_nonneg (initSystem items) calls (by intro l hl; simp [initSystem] at hl)

/-- The level left by the C4 witness sequence: the +3 adjust stocked it, the
-5 adjust was rejected and changed nothing. -/
def c4Level : InventoryLevel :=
  { id := 0, itemId := "item-1", propertyId := "prop-1", unitId := none, roomId := none
    quantityOnHand := 3, quantityReserved := 0, quantityAvailable := 3
    reorderPoint := some 0, maxQuantity := none, alertLevel := .NORMAL }

/-- Witness for C4: the amended statement at concrete inputs.  A store with
an existing level holding 3 units rejects an adjust of -5 writing nothing,
and after the adjust-only sequence [+3, -5] the surviving level's on-hand is
non-negative. -/
theorem c4_witness :
    (adjustInventory (runAdjusts (initSystem [demoItem])
        [⟨"item-1", "prop-1", none, none, 3⟩])
        "item-1" "prop-1" none none (-5)).2 =
      .error "Insufficient inventory quantity" ∧
    (runAdjusts (initSystem [demoItem])
        [⟨"item-1", "prop-1", none, none, 3⟩]).transactions.length = 1 ∧
    0 ≤ c4Level.quantityOnHand := by
  refine ⟨by with_unfolding_all decide, by with_unfolding_all decide, ?_⟩
  exact c4_theorem.2 [demoItem]
    [⟨"item-1", "prop-1", none, none, 3⟩, ⟨"item-1", "prop-1", none, none, -5⟩]
    c4Level (by with_unfolding_all decide)

/-! ## Claim C5 -/

/-- C5 counterexample: at quantity 3, reorderPoint 2, maxQuantity 0 the
evaluator as the claim words it (maxQuantity merely *present*) answers
OVERSTOCK (3 ≥ 2·0), but the code guards the overstock/high branches with JS
truthiness (`maxQuantity && ...`), under which a present-but-zero maxQuantity
is skipped, giving NORMAL. -/
theorem c5_counterexample :
    calculateAlertLevel 3 (some 2) (some 0) = .NORMAL ∧
      claimAlertLevel 3 (some 2) (some 0) = .OVERSTOCK ∧
      (calculateAlertLevel 3 (some 2) (some 0) == claimAlertLevel 3 (some 2) (some 0)) = false := by
  with_unfolding_all decide

/-- C5 (amended): `calculateAlertLevel` implements exactly the claimed total
function once the OVERSTOCK/HIGH guards read "maxQuantity present *and
nonzero*" instead of merely "present"; in particular the claimed scenario
values evaluate(24, 12, null) = NORMAL and evaluate(3, 12, null) = LOW hold. -/
theorem c5_theorem :
    (∀ q rp mq, calculateAlertLevel q rp mq = claimAlertLevelAmended q rp mq) ∧
      calculateAlertLevel 24 (some 12) none = .NORMAL ∧
      calculateAlertLevel 3 (some 12) none = .LOW := by
  refine ⟨?_, by with_unfolding_all decide, by with_unfolding_all decide⟩
  intro q rp mq
  rcases rp with _ | rp
  · simp [calculateAlertLevel, claimAlertLevelAmended]
  · by_cases hrp : rp = 0
    · subst hrp
      simp [calculateAlertLevel, claimAlertLevelAmended]
    · rcases mq with _ | m
      · simp [calculateAlertLevel, claimAlertLevelAmended, jsNumTruthy,
          config.stockAlert, hrp]
      · simp only [calculateAlertLevel, claimAlertLevelAmended, jsNumTruthy,
          config.stockAlert, hrp, Option.getD_some, bne_iff_ne, ne_eq,
          Option.some.injEq, false_or, if_neg, reduceCtorEq, or_false, or_self]

/-! ## Claim C9 -/

/-- The level stored in the C9 counterexample store: its `unitId` and
`roomId` are absent. -/
def c9Level : InventoryLevel :=
  { id := 0, itemId := "item-1", propertyId := "prop-1", unitId := none, roomId := none
    quantityOnHand := 4, quantityReserved := 0, quantityAvailable := 4
    reorderPoint := some 0, maxQuantity := none, alertLevel := .NORMAL }

def c9System : System :=
  { initSystem [demoItem] with levels := [c9Level], nextLevelId := 1 }

/-- C9 counterexample: a lookup passing the *empty-string* unitId matches the
stored level whose unitId is *absent* — the `unitId || null` coercion in
`getLevelByLocation` collapses the empty string to null, so an empty-string
component is not distinct from an absent one, contradicting the claim that a
lookup matches only on exact equality of all three components. -/
theorem c9_counterexample :
    getLevelByLocation c9System "item-1" "prop-1" (some "") none = some c9Level ∧
      (c9Level.unitId == some "") = false := by
  with_unfolding_all decide

/-- C9 (amended): `getLevelByLocation` finds a level iff `itemId` and
`propertyId` match exactly and the stored optional components equal the
*coerced* query components, where the coercion (`jsStringOrNone`, from the
JS `unitId || null`) collapses an empty-string query component to absent;
absence is still not a wildcard, but an empty-string query component is
equivalent to an absent one rather than distinct from it. -/
theorem c9_theorem :
    ∀ s itemId propertyId unitId roomId,
      ((getLevelByLocation s itemId propertyId unitId roomId).isSome ↔
        ∃ l ∈ s.levels, l.itemId = itemId ∧ l.propertyId = propertyId ∧
          l.unitId = jsStringOrNone unitId ∧ l.roomId = jsStringOrNone roomId) ∧
      (∀ l, getLevelByLocation s itemId propertyId unitId roomId = some l →
        l ∈ s.levels ∧ l.itemId = itemId ∧ l.propertyId = propertyId ∧
          l.unitId = jsStringOrNone unitId ∧ l.roomId = jsStringOrNone roomId) := by
  intro s itemId propertyId unitId roomId
  constructor
  · rw [getLevelByLocation, List.find?_isSome]
    constructor
    · rintro ⟨x, hx, hp⟩
      simp only [levelMatchesQuery, Bool.and_eq_true, beq_iff_eq] at hp
      exact ⟨x, hx, hp.1.1.1, hp.1.1.2, hp.1.2, hp.2⟩
    · rintro ⟨x, hx, h1, h2, h3, h4⟩
      exact ⟨x, hx, by simp [levelMatchesQuery, h1, h2, h3, h4]⟩
  · intro l hl
    have hmem := List.mem_of_find?_eq_some hl
    have hp := List.find?_some hl
    simp only [levelMatchesQuery, Bool.and_eq_true, beq_iff_eq] at hp
    exact ⟨hmem, hp.1.1.1, hp.1.1.2, hp.1.2, hp.2⟩

/-- Witness for C9: the amended characterization applied to the concrete
store `c9System` with the empty-string query, producing the stored level. -/
theorem c9_witness :
    c9Level ∈ c9System.levels ∧ c9Level.itemId = "item-1" ∧
      c9Level.propertyId = "prop-1" ∧
      c9Level.unitId = jsStringOrNone (some "") ∧
      c9Level.roomId = jsStringOrNone none :=
  (c9_theorem c9System "item-1" "prop-1" (some "") none).2 c9Level
    (by with_unfolding_all decide)

/-! ## Claim C3 -/

/-- C3 (confirmed): `processTransaction` on a transaction whose status is
COMPLETED fails with the already-completed error, on any other non-APPROVED
status fails with the must-be-approved error, and in both cases the store —
levels included — is returned entirely unchanged: the guards throw before the
type dispatch and before the catch-block status write. -/
theorem c3_theorem :
    ∀ s id tx, s.transactions.find? (fun t => t.id == id) = some tx →
      (tx.status = .COMPLETED →
        processTransaction s id = (s, .error "Transaction already completed")) ∧
      (tx.status ≠ .COMPLETED → tx.status ≠ .APPROVED →
        processTransaction s id =
          (s, .error "Transaction must be approved before processing")) := by
  intro s id tx hf
  constructor
  · intro hc
    unfold processTransaction
    rw [hf]
    dsimp only
    rw [if_pos hc]
  · intro hnc hna
    unfold processTransaction
    rw [hf]
    dsimp only
    rw [if_neg hnc, if_pos hna]

/-- A COMPLETED RECEIVE transaction parked in the C3 store. -/
def c3TxCompleted : TransactionRec :=
  { id := 0, ttype := .RECEIVE, status := .COMPLETED, itemId := "item-1", quantity := 1
    fromPropertyId := none, fromUnitId := none, fromRoomId := none
    toPropertyId := some "prop-1", toUnitId := none, toRoomId := none
    stagingDesignId := none, notes := none }

/-- A PENDING RECEIVE transaction parked in the C3 store. -/
def c3TxPending : TransactionRec :=
  { c3TxCompleted with id := 1, status := .PENDING }

def c3System : System :=
  { initSystem [demoItem] with
    transactions := [c3TxCompleted, c3TxPending], nextTxId := 2 }

/-- Witness for C3: both guards at concrete transactions — processing the
COMPLETED transaction 0 and the PENDING transaction 1 of `c3System` fails
with the respective error and leaves the store untouched. -/
theorem c3_witness :
    processTransaction c3System 0 = (c3System, .error "Transaction already completed") ∧
      processTransaction c3System 1 =
        (c3System, .error "Transaction must be approved before processing") := by
  constructor
  · exact (c3_theorem c3System 0 c3TxCompleted (by with_unfolding_all decide)).1
      (by with_unfolding_all decide)
  · exact (c3_theorem c3System 1 c3TxPending (by with_unfolding_all decide)).2
      (by with_unfolding_all decide) (by with_unfolding_all decide)

/-! ## Claim C6 -/

/-- C6 (confirmed): in every store reachable by level-service operation
sequences, every (itemId, levelId) pair has at most one unresolved stock
alert, and a successful `adjustInventory` call that leaves the level CRITICAL
or LOW ends with *exactly one* unresolved alert for that level — repeated
adjustments that keep the level critical never spawn a duplicate, because
`checkAndCreateAlert` looks for an existing unresolved alert first. -/
theorem c6_theorem :
    ∀ items ops,
      (∀ i n, countUnresolved (runOps (initSystem items) ops).alerts i n ≤ 1) ∧
      (∀ itemId propertyId unitId roomId q s' lvl,
        adjustInventory (runOps (initSystem items) ops)
          itemId propertyId unitId roomId q = (s', .ok lvl) →
        lvl.alertLevel = .CRITICAL ∨ lvl.alertLevel = .LOW →
        countUnresolved s'.alerts lvl.itemId lvl.id = 1) := by
  intro items ops
  have hinv := runOps_inv (initSystem items) ops (initSystem_inv items)
  refine ⟨hinv.2, ?_⟩
  intro itemId propertyId unitId roomId q s' lvl h hl
  obtain ⟨s₂, hal, rfl⟩ := adjustInventory_ok_alerts _ _ _ _ _ _ _ _ h
  refine checkAndCreateAlert_eq_one s₂ lvl hl ?_
  rw [hal]
  exact hinv.2 lvl.itemId lvl.id

/-- The level produced by the C6 witness adjustment: on-hand 2 against a
reorder point of 10 is LOW. -/
def c6Lvl : InventoryLevel :=
  { id := 0, itemId := "item-2", propertyId := "prop-1", unitId := none, roomId := none
    quantityOnHand := 2, quantityReserved := 0, quantityAvailable := 2
    reorderPoint := some 10, maxQuantity := none, alertLevel := .LOW }

/-- Witness for C6: one concrete adjust on a fresh store leaves the level LOW
with exactly one unresolved alert, and a second identical adjust (level stays
LOW) still leaves exactly one. -/
theorem c6_witness :
    countUnresolved
      (adjustInventory (runOps (initSystem [alertItem]) [])
        "item-2" "prop-1" none none 2).1.alerts c6Lvl.itemId c6Lvl.id = 1 ∧
    countUnresolved
      (adjustInventory
        (runOps (initSystem [alertItem]) [.adjust "item-2" "prop-1" none none 2])
        "item-2" "prop-1" none none 0).1.alerts c6Lvl.itemId c6Lvl.id = 1 := by
  constructor
  · exact (c6_theorem [alertItem] []).2 "item-2" "prop-1" none none 2 _ c6Lvl
      (by with_unfolding_all decide) (by with_unfolding_all decide)
  · exact (c6_theorem [alertItem] [.adjust "item-2" "prop-1" none none 2]).2
      "item-2" "prop-1" none none 0 _ c6Lvl
      (by with_unfolding_all decide) (by with_unfolding_all decide)

/-! ## Claim C10 -/

theorem markTransaction_length (s : System) (id : Nat) (st : TransactionStatus)
    (notes : Option String) :
    (markTransaction s id st notes).transactions.length = s.transactions.length := by
  simp [markTransaction]

theorem adjustInventory_ok_length (s : System) (itemId propertyId : String)
    (unitId roomId : Option String) (q : ℚ) (s' : System) (lvl : InventoryLevel)
    (h : adjustInventory s itemId propertyId unitId roomId q = (s', .ok lvl)) :
    s'.transactions.length = s.transactions.length + 1 := by
  obtain ⟨t, ht, -⟩ := adjustInventory_ok_transactions _ _ _ _ _ _ _ _ h
  simp [ht]

theorem processReceive_ok_length (s : System) (tx : TransactionRec) (s₁ : System)
    (h : processReceive s tx = (s₁, .ok ())) :
    s₁.transactions.length = s.transactions.length + 1 := by
  unfold processReceive at h
  rcases hp : tx.toPropertyId with _ | p <;> rw [hp] at h <;> dsimp only at h
  · injection h with h1 h2
    exact absurd h2 (by simp)
  · rcases ha : adjustInventory s tx.itemId p
        (jsStringOrNone tx.toUnitId) (jsStringOrNone tx.toRoomId) tx.quantity with
      ⟨s₂, e | lvl⟩ <;> rw [ha] at h <;> dsimp only [Except.map] at h
    · injection h with h1 h2
      exact absurd h2 (by simp)
    · injection h with h1 h2
      rw [← h1]
      exact adjustInventory_ok_length _ _ _ _ _ _ _ _ ha

theorem processTransfer_ok_length (s : System) (tx : TransactionRec) (s₁ : System)
    (h : processTransfer s tx = (s₁, .ok ())) :
    s₁.transactions.length = s.transactions.length + 2 := by
  unfold processTransfer at h
  split at h
  · injection h with h1 h2
    exact absurd h2 (by simp)
  · rcases ha : adjustInventory s tx.itemId (tx.fromPropertyId.getD "")
        (jsStringOrNone tx.fromUnitId) (jsStringOrNone tx.fromRoomId) (-tx.quantity) with
      ⟨s₂, e | lvl⟩ <;> rw [ha] at h <;> dsimp only at h
    · injection h with h1 h2
      exact absurd h2 (by simp)
    · rcases hb : adjustInventory s₂ tx.itemId (tx.toPropertyId.getD "")
          (jsStringOrNone tx.toUnitId) (jsStringOrNone tx.toRoomId) tx.quantity with
        ⟨s₃, e | lvl'⟩ <;> rw [hb] at h <;> dsimp only [Except.map] at h
      · injection h with h1 h2
        exact absurd h2 (by simp)
      · injection h with h1 h2
        rw [← h1]
        rw [adjustInventory_ok_length _ _ _ _ _ _ _ _ hb,
          adjustInventory_ok_length _ _ _ _ _ _ _ _ ha]

theorem processTransaction_ok (s : System) (id : Nat) (tx : TransactionRec)
    (s' : System)
    (hf : s.transactions.find? (fun t => t.id == id) = some tx)
    (h : processTransaction s id = (s', .ok ())) :
    ∃ s₁, dispatchTransaction s tx = (s₁, .ok ()) ∧
      s' = markTransaction s₁ id .COMPLETED none := by
  unfold processTransaction at h
  rw [hf] at h
  dsimp only at h
  by_cases hc : tx.status = .COMPLETED
  · rw [if_pos hc] at h
    injection h with h1 h2
    exact absurd h2 (by simp)
  · rw [if_neg hc] at h
    by_cases ha : tx.status ≠ .APPROVED
    · rw [if_pos ha] at h
      injection h with h1 h2
      exact absurd h2 (by simp)
    · rw [if_neg ha] at h
      rcases hd : dispatchTransaction s tx with ⟨s₁, e | u⟩ <;> rw [hd] at h <;>
        dsimp only at h
      · injection h with h1 h2
        exact absurd h2 (by simp)
      · injection h with h1 h2
        cases u
        exact ⟨s₁, rfl, h1.symm⟩

/-- C10 (confirmed): every successful `adjustInventory` call appends exactly
one new COMPLETED ADJUST transaction whose quantity is the absolute delta,
with the location on the to-side for a positive delta and on the from-side
for a negative one; consequently processing a lone APPROVED RECEIVE leaves
two ledger records (the RECEIVE plus its ADJUST) and processing a lone
APPROVED TRANSFER leaves three (the TRANSFER plus one ADJUST per leg). -/
theorem c10_theorem :
    (∀ s itemId propertyId unitId roomId q s' lvl,
      adjustInventory s itemId propertyId unitId roomId q = (s', .ok lvl) →
      ∃ t, s'.transactions = s.transactions ++ [t] ∧
        t.ttype = .ADJUST ∧ t.status = .COMPLETED ∧ t.itemId = itemId ∧
        t.quantity = |q| ∧
        (q > 0 → t.toPropertyId = some propertyId ∧ t.fromPropertyId = none) ∧
        (q < 0 → t.fromPropertyId = some propertyId ∧ t.toPropertyId = none)) ∧
    (∀ s id tx s', s.transactions = [tx] → tx.id = id → tx.ttype = .RECEIVE →
      processTransaction s id = (s', .ok ()) → s'.transactions.length = 2) ∧
    (∀ s id tx s', s.transactions = [tx] → tx.id = id → tx.ttype = .TRANSFER →
      processTransaction s id = (s', .ok ()) → s'.transactions.length = 3) := by
  refine ⟨?_, ?_, ?_⟩
  · intro s itemId propertyId unitId roomId q s' lvl h
    exact adjustInventory_ok_transactions _ _ _ _ _ _ _ _ h
  · intro s id tx s' htx hid htype h
    have hf : s.transactions.find? (fun t => t.id == id) = some tx := by
      rw [htx]
      simp [hid]
    obtain ⟨s₁, hd, rfl⟩ := processTransaction_ok s id tx _ hf h
    rw [dispatchTransaction, htype] at hd
    rw [markTransaction_length, processReceive_ok_length s tx s₁ hd, htx]
    rfl
  · intro s id tx s' htx hid htype h
    have hf : s.transactions.find? (fun t => t.id == id) = some tx := by
      rw [htx]
      simp [hid]
    obtain ⟨s₁, hd, rfl⟩ := processTransaction_ok s id tx _ hf h
    rw [dispatchTransaction, htype] at hd
    rw [markTransaction_length, processTransfer_ok_length s tx s₁ hd, htx]
    rfl

/-- An APPROVED RECEIVE of 3 units into property `prop-1`. -/
def c10ReceiveTx : TransactionRec :=
  { id := 0, ttype := .RECEIVE, status := .APPROVED, itemId := "item-1", quantity := 3
    fromPropertyId := none, fromUnitId := none, fromRoomId := none
    toPropertyId := some "prop-1", toUnitId := none, toRoomId := none
    stagingDesignId := none, notes := none }

def c10ReceiveSystem : System :=
  { initSystem [demoItem] with transactions := [c10ReceiveTx], nextTxId := 1 }

/-- An APPROVED TRANSFER of 2 units from property `A` to property `B`. -/
def c10TransferTx : TransactionRec :=
  { id := 0, ttype := .TRANSFER, status := .APPROVED, itemId := "item-1", quantity := 2
    fromPropertyId := some "A", fromUnitId := none, fromRoomId := none
    toPropertyId := some "B", toUnitId := none, toRoomId := none
    stagingDesignId := none, notes := none }

/-- The source level for the C10 transfer: 5 units at property `A`. -/
def c10SrcLevel : InventoryLevel :=
  { id := 0, itemId := "item-1", propertyId := "A", unitId := none, roomId := none
    quantityOnHand := 5, quantityReserved := 0, quantityAvailable := 5
    reorderPoint := some 0, maxQuantity := none, alertLevel := .NORMAL }

def c10TransferSystem : System :=
  { initSystem [demoItem] with
    levels := [c10SrcLevel], nextLevelId := 1
    transactions := [c10TransferTx], nextTxId := 1 }

/-- Witness for C10: processing the lone RECEIVE of `c10ReceiveSystem` leaves
two ledger records, and processing the lone TRANSFER of `c10TransferSystem`
leaves three. -/
theorem c10_witness :
    (processTransaction c10ReceiveSystem 0).1.transactions.length = 2 ∧
      (processTransaction c10TransferSystem 0).1.transactions.length = 3 := by
  constructor
  · exact c10_theorem.2.1 c10ReceiveSystem 0 c10ReceiveTx _
      (by with_unfolding_all decide) (by with_unfolding_all decide)
      (by with_unfolding_all decide) (by with_unfolding_all decide)
  · exact c10_theorem.2.2 c10TransferSystem 0 c10TransferTx _
      (by with_unfolding_all decide) (by with_unfolding_all decide)
      (by with_unfolding_all decide) (by with_unfolding_all decide)

/-! ## Claim C2 -/

theorem markTransaction_levels (s : System) (id : Nat) (st : TransactionStatus)
    (notes : Option String) : (markTransaction s id st notes).levels = s.levels := rfl

/-- C2 (amended): when the destination-leg `adjustInventory` of a TRANSFER
fails after the source leg succeeded, `processTransaction` marks the
transaction CANCELLED with `Processing failed: <error>` appended to its notes
and rethrows — but it performs no compensation: the final store is exactly
the source-leg-applied store `s₂` with only the transaction's status/notes
changed, so the net level state reflects the source leg alone (that applied
leg is, however, recorded by the ADJUST ledger entry `adjustInventory`
itself wrote). -/
theorem c2_theorem :
    ∀ s id tx s₁ lvl s₂ e,
      s.transactions.find? (fun t => t.id == id) = some tx →
      tx.ttype = .TRANSFER → tx.status = .APPROVED →
      ¬ (tx.fromPropertyId = none ∨ tx.toPropertyId = none) →
      adjustInventory s tx.itemId (tx.fromPropertyId.getD "")
        (jsStringOrNone tx.fromUnitId) (jsStringOrNone tx.fromRoomId)
        (-tx.quantity) = (s₁, .ok lvl) →
      adjustInventory s₁ tx.itemId (tx.toPropertyId.getD "")
        (jsStringOrNone tx.toUnitId) (jsStringOrNone tx.toRoomId)
        tx.quantity = (s₂, .error e) →
      processTransaction s id =
        (markTransaction s₂ id .CANCELLED
          (some ((tx.notes.getD "") ++ "\nProcessing failed: " ++ e)), .error e) ∧
      (processTransaction s id).1.levels = s₂.levels := by
  intro s id tx s₁ lvl s₂ e hf htype hstat hploc hadj1 hadj2
  have hd : dispatchTransaction s tx = (s₂, .error e) := by
    rw [dispatchTransaction, htype]
    unfold processTransfer
    rw [if_neg hploc, hadj1]
    dsimp only
    rw [hadj2]
    rfl
  have h1 : processTransaction s id =
      (markTransaction s₂ id .CANCELLED
        (some ((tx.notes.getD "") ++ "\nProcessing failed: " ++ e)), .error e) := by
    unfold processTransaction
    rw [hf]
    dsimp only
    rw [if_neg (by simp [hstat]), if_neg (by simp [hstat]), hd]
  exact ⟨h1, by rw [h1, markTransaction_levels]⟩

/-- The APPROVED TRANSFER of the C2 scenario: 5 units from `A` to `B`. -/
def c2Tx : TransactionRec :=
  { id := 0, ttype := .TRANSFER, status := .APPROVED, itemId := "item-1", quantity := 5
    fromPropertyId := some "A", fromUnitId := none, fromRoomId := none
    toPropertyId := some "B", toUnitId := none, toRoomId := none
    stagingDesignId := none, notes := none }

/-- The destination level of the C2 scenario, previously driven to -10 via
the unguarded public `updateLevel` operation, so that the destination-leg
adjust (-10 + 5 < 0) fails. -/
def c2DestLevel : InventoryLevel :=
  { id := 1, itemId := "item-1", propertyId := "B", unitId := none, roomId := none
    quantityOnHand := -10, quantityReserved := 0, quantityAvailable := -10
    reorderPoint := some 0, maxQuantity := none, alertLevel := .NORMAL }

def c2System : System :=
  { initSystem [demoItem] with
    levels := [c10SrcLevel, c2DestLevel], nextLevelId := 2
    transactions := [c2Tx], nextTxId := 1 }

/-- The store after the successful source leg of the C2 transfer: source
on-hand 5 → 0, plus the ADJUST ledger entry for that leg.  The failing
destination leg then returns this store unchanged. -/
def c2S1 : System := (adjustInventory c2System "item-1" "A" none none (-5)).1

/-- The source level after the C2 source leg: emptied from 5 to 0. -/
def c2SrcAfter : InventoryLevel :=
  { c10SrcLevel with quantityOnHand := 0, quantityAvailable := 0 }

/-- C2 counterexample: processing the TRANSFER of `c2System` fails on the
destination leg after the source leg was applied; the transaction does end
CANCELLED, but the final level state is source decremented (5 → 0) with the
destination unchanged (-10) — neither "both legs applied" ([0, -5]) nor
"neither leg applied" ([5, -10]), so the claimed all-or-nothing net state is
false: the source-leg decrement stands without the destination increment. -/
theorem c2_counterexample :
    (processTransaction c2System 0).2 = .error "Insufficient inventory quantity" ∧
    ((processTransaction c2System 0).1.transactions.map fun t => (t.ttype, t.status)) =
      [(.TRANSFER, .CANCELLED), (.ADJUST, .COMPLETED)] ∧
    ((processTransaction c2System 0).1.levels.map fun l => (l.propertyId, l.quantityOnHand)) =
      [("A", 0), ("B", -10)] ∧
    (decide
      (((processTransaction c2System 0).1.levels.map fun l => (l.propertyId, l.quantityOnHand)) =
          [("A", 0), ("B", -5)] ∨
        ((processTransaction c2System 0).1.levels.map fun l => (l.propertyId, l.quantityOnHand)) =
          [("A", 5), ("B", -10)])) = false := by
  with_unfolding_all decide

/-- Witness for C2: the amended statement at the concrete `c2System`
scenario. -/
theorem c2_witness :
    processTransaction c2System 0 =
      (markTransaction c2S1 0 .CANCELLED
        (some ((c2Tx.notes.getD "") ++ "\nProcessing failed: " ++
          "Insufficient inventory quantity")),
        .error "Insufficient inventory quantity") ∧
    (processTransaction c2System 0).1.levels = c2S1.levels :=
  c2_theorem c2System 0 c2Tx c2S1 c2SrcAfter c2S1 "Insufficient inventory quantity"
    (by with_unfolding_all decide) (by with_unfolding_all decide)
    (by with_unfolding_all decide) (by with_unfolding_all decide)
    (by with_unfolding_all decide) (by with_unfolding_all decide)

/-! ## Claims C7 and C8: forecasting -/

theorem addConsumption_length_ge (m : List (Int × ℚ)) (e : Int × ℚ) :
    m.length ≤ (addConsumption m e).length := by
  unfold addConsumption
  split
  · simp
  · simp

theorem length_le_foldl_addConsumption {α : Type} (xs : List α) (g : α → Int × ℚ)
    (init : List (Int × ℚ)) :
    init.length ≤ (xs.foldl (fun m t => addConsumption m (g t)) init).length := by
  induction xs generalizing init with
  | nil => exact le_rfl
  | cons x rest ih => exact le_trans (addConsumption_length_ge init (g x)) (ih _)

/-- The dense daily series always carries at least one entry per trailing
day: the zero-fill initialises all `days` dates before any consumption is
summed in, so its length never drops below `days`. -/
theorem getHistoricalConsumption_length (today : Int) (days : Nat)
    (propertyId : Option String) (ledger : List TransactionRec)
    (txDate : TransactionRec → Int) :
    days ≤ (getHistoricalConsumption today days propertyId ledger txDate).length := by
  unfold getHistoricalConsumption
  rw [List.length_mergeSort]
  calc days = ((List.range days).map (fun (i : Nat) => (today - (i : Int), (0 : ℚ)))).length := by
        simp only [List.length_map, List.length_range]
    _ ≤ _ := length_le_foldl_addConsumption _ _ _

/-- Five COMPLETED CONSUME transactions on five distinct days. -/
def c7Ledger : List TransactionRec :=
  (List.range 5).map (fun i =>
    { id := i, ttype := .CONSUME, status := .COMPLETED, itemId := "item-1", quantity := 2
      fromPropertyId := some "prop-1", fromUnitId := none, fromRoomId := none
      toPropertyId := none, toUnitId := none, toRoomId := none
      stagingDesignId := none, notes := none })

/-- The transaction dates of the C7 scenario: days 100-104, with "today"
being day 150 (all five inside the trailing 90-day window). -/
def c7TxDate : TransactionRec → Int := fun t => 100 + t.id

def c7Run : List StoredForecast × Except String ForecastData :=
  forecastDemand 150 "item-1" none 30 true c7Ledger c7TxDate none []

/-- C7: the insufficient-history guard is dead code.  `forecastDemand`
compares 7 against the length of the *dense zero-filled* series, which always
holds at least `historicalDays` = 90 entries, so the guard can never fire:
for any ledger the call never returns the insufficient-history error, and on
the concrete 5-days-of-data scenario (`c7Ledger`) it succeeds, returns a
30-day forecast and persists 30 rows — the spec (and the guard's own error
message) instead demand failure with no forecast persisted when fewer than 7
distinct days of data exist. -/
theorem c7_theorem :
    (∀ today propertyId ledger txDate,
      7 ≤ (getHistoricalConsumption today config.forecasting.historicalDays
        propertyId ledger txDate).length) ∧
    (∀ today itemId propertyId periodDays ledger txDate resp store,
      ∃ d, (forecastDemand today itemId propertyId periodDays true
        ledger txDate resp store).2 = .ok d) ∧
    ((c7Ledger.map c7TxDate).dedup.length = 5 ∧
      (match c7Run.2 with | .ok d => d.forecasts.length | .error _ => 0) = 30 ∧
      c7Run.1.length = 30) := by
  have hlen : ∀ today propertyId ledger txDate,
      7 ≤ (getHistoricalConsumption today config.forecasting.historicalDays
        propertyId ledger txDate).length := by
    intro today propertyId ledger txDate
    exact le_trans (by decide)
      (getHistoricalConsumption_length today config.forecasting.historicalDays
        propertyId ledger txDate)
  refine ⟨hlen, ?_, by with_unfolding_all decide⟩
  intro today itemId propertyId periodDays ledger txDate resp store
  unfold forecastDemand
  dsimp only
  rw [if_neg (by simp), if_neg (Nat.not_lt.mpr (hlen today propertyId ledger txDate))]
  cases resp <;> exact ⟨_, rfl⟩

/-- The average over the last 14 entries of the dense series, exactly as
`simpleMovingAverageForecast` computes it (`historicalData.slice(-14)`). -/
def last14Avg (hist : List (Int × ℚ)) : ℚ :=
  ((hist.drop (hist.length - 14)).map (fun p => p.2)).sum /
    ((hist.drop (hist.length - 14)).length : ℚ)

/-- C8 (confirmed): whenever the external prediction call fails
(`prophetResponse = none`), `forecastDemand` returns exactly the
moving-average fallback: `periodDays` forecast points, each with
predictedDemand equal to the average of the last 14 days of the dense
series (which has exactly 14 entries), lowerBound 0.7 and upperBound 1.3
times that average, confidence 0.6, and the fallback model version
`simple-ma` on the payload and on every newly persisted row. -/
theorem c8_theorem :
    ∀ today itemId propertyId periodDays ledger txDate store,
      ∃ d, (forecastDemand today itemId propertyId periodDays true
          ledger txDate none store).2 = .ok d ∧
        d = simpleMovingAverageForecast today
          (getHistoricalConsumption today config.forecasting.historicalDays
            propertyId ledger txDate) periodDays ∧
        d.forecasts.length = periodDays ∧
        ((getHistoricalConsumption today config.forecasting.historicalDays
          propertyId ledger txDate).drop
          ((getHistoricalConsumption today config.forecasting.historicalDays
            propertyId ledger txDate).length - 14)).length = 14 ∧
        (∀ f ∈ d.forecasts,
          f.predictedDemand = last14Avg (getHistoricalConsumption today
            config.forecasting.historicalDays propertyId ledger txDate) ∧
          f.lowerBound = last14Avg (getHistoricalConsumption today
            config.forecasting.historicalDays propertyId ledger txDate) * (7/10) ∧
          f.upperBound = last14Avg (getHistoricalConsumption today
            config.forecasting.historicalDays propertyId ledger txDate) * (13/10) ∧
          f.confidence = 3/5) ∧
        d.modelVersion = some "simple-ma" ∧
        (∀ row ∈ (forecastDemand today itemId propertyId periodDays true
            ledger txDate none store).1,
          row ∈ store ∨ row.modelVersion = "simple-ma") := by
  intro today itemId propertyId periodDays ledger txDate store
  have h90 : 90 ≤ (getHistoricalConsumption today config.forecasting.historicalDays
      propertyId ledger txDate).length :=
    getHistoricalConsumption_length today config.forecasting.historicalDays
      propertyId ledger txDate
  have h7 : ¬ (getHistoricalConsumption today config.forecasting.historicalDays
      propertyId ledger txDate).length < 7 := by omega
  have hrun : forecastDemand today itemId propertyId periodDays true
      ledger txDate none store =
      (storeForecastResults store today itemId propertyId
        (simpleMovingAverageForecast today
          (getHistoricalConsumption today config.forecasting.historicalDays
            propertyId ledger txDate) periodDays),
        .ok (simpleMovingAverageForecast today
          (getHistoricalConsumption today config.forecasting.historicalDays
            propertyId ledger txDate) periodDays)) := by
    unfold forecastDemand
    dsimp only
    rw [if_neg (by simp), if_neg h7]
  refine ⟨_, by rw [hrun], rfl, ?_, ?_, ?_, ?_, ?_⟩
  · simp only [simpleMovingAverageForecast, List.length_map, List.length_range]
  · rw [List.length_drop]
    omega
  · intro f hf
    simp only [simpleMovingAverageForecast, List.mem_map, List.mem_range] at hf
    obtain ⟨i, hi, rfl⟩ := hf
    exact ⟨rfl, rfl, rfl, rfl⟩
  · rfl
  · intro row hrow
    rw [hrun] at hrow
    simp only [storeForecastResults, List.mem_append] at hrow
    rcases hrow with hrow | hrow
    · exact Or.inl (List.mem_of_mem_filter hrow)
    · simp only [List.mem_map] at hrow
      obtain ⟨f, hf, rfl⟩ := hrow
      exact Or.inr rfl

/-- Witness for C8: the fallback at the concrete 5-day scenario — the call
succeeds, the payload carries model version `simple-ma`, 30 points, and
confidence 0.6 on every point. -/
theorem c8_witness :
    (forecastDemand 150 "item-1" none 30 true c7Ledger c7TxDate none []).2 =
      .ok (simpleMovingAverageForecast 150
        (getHistoricalConsumption 150 config.forecasting.historicalDays none
          c7Ledger c7TxDate) 30) ∧
    (simpleMovingAverageForecast 150
      (getHistoricalConsumption 150 config.forecasting.historicalDays none
        c7Ledger c7TxDate) 30).modelVersion = some "simple-ma" ∧
    (simpleMovingAverageForecast 150
      (getHistoricalConsumption 150 config.forecasting.historicalDays none
        c7Ledger c7TxDate) 30).forecasts.length = 30 := by
  obtain ⟨d, h1, h2, h3, -, -, h6, -⟩ :=
    c8_theorem 150 "item-1" none 30 c7Ledger c7TxDate []
  rw [h2] at h1 h3 h6
  exact ⟨h1, h6, h3⟩

end Inventory
